import Mathlib

attribute [local instance] Classical.propDecidable

/-!
Verification of the digit-by-digit elementary-function routines of the
`nummethods` repository (`src/log.cpp`: `ln1`, `exp1`, `sqrt1`;
`src/trig.cpp`: `range_reduction`, `tan1`, `atan1`).

The C code computes with IEEE doubles; here every `double` value is modelled
as an exact real number, every `double` constant that the source writes as a
decimal literal is the corresponding rational literal, and every call of the
C library (`log`, `atan`, `pow`, `fabs`, ...) is the corresponding exact real
function.  Unbounded `while`/`do` loops of the source are translated as
well-founded recursions whose conditions are the loop conditions of the
source; the termination measures are proof artifacts only and do not change
the computed values.
-/

/-! ## Square root (`sqrt1`, src/log.cpp)

The source:

    double sqrt1(const double n) {
        if (n < 0) return 0;
        if (n == 0) return 0;
        double last;
        double result = n / 10;
        do {
            last = result;
            double sx = n / last;
            result = (last + sx) / 2;
        } while (fabs(last - result) > 1e-15);
        return result;
    }

`newtonSeq n k` is the value of `result` after `k` iterations of the loop
body (`newtonSeq n 0` is the initial guess `n / 10`).  The do-while loop
exits after the first iteration whose `last` and `result` differ by at most
`1e-15`, i.e. after computing `newtonSeq n (k+1)` for the least `k` with
`sqrtStop n k`; termination (existence of such a `k`) is proved below. -/

noncomputable def newtonStep (n x : ℝ) : ℝ := (x + n / x) / 2

noncomputable def newtonSeq (n : ℝ) : ℕ → ℝ
  | 0 => n / 10
  | k + 1 => newtonStep n (newtonSeq n k)

/-- The exit condition of the do-while convergence loop of `sqrt1`. -/
noncomputable def sqrtStop (n : ℝ) (k : ℕ) : Prop :=
  |newtonSeq n k - newtonSeq n (k + 1)| ≤ 1e-15

theorem newtonSeq_pos {n : ℝ} (hn : 0 < n) : ∀ k, 0 < newtonSeq n k := by
  intro k
  induction k with
  | zero => simpa [newtonSeq] using by positivity
  | succ k ih =>
    have : 0 < n / newtonSeq n k := div_pos hn ih
    simp only [newtonSeq, newtonStep]
    positivity

theorem sqrt_le_newtonStep {n x : ℝ} (hn : 0 < n) (hx : 0 < x) :
    Real.sqrt n ≤ newtonStep n x := by
  have hs : Real.sqrt n * Real.sqrt n = n := Real.mul_self_sqrt hn.le
  have hdiv : n / x * x = n := div_mul_cancel₀ n hx.ne'
  rw [newtonStep, le_div_iff₀ (by norm_num : (0:ℝ) < 2)]
  nlinarith [sq_nonneg (x - Real.sqrt n), hdiv, hx, hs]

theorem newtonStep_le_self {n x : ℝ} (hn : 0 < n) (hx : 0 < x)
    (hsx : Real.sqrt n ≤ x) : newtonStep n x ≤ x := by
  have hs : Real.sqrt n * Real.sqrt n = n := Real.mul_self_sqrt hn.le
  have hsn : 0 ≤ Real.sqrt n := Real.sqrt_nonneg n
  rw [newtonStep, div_le_iff₀ (by norm_num : (0:ℝ) < 2)]
  have hnx : n / x ≤ x := by
    rw [div_le_iff₀ hx]; nlinarith
  linarith

theorem newtonStep_err_half {n x : ℝ} (hn : 0 < n) (hx : 0 < x)
    (hsx : Real.sqrt n ≤ x) :
    newtonStep n x - Real.sqrt n ≤ (x - Real.sqrt n) / 2 := by
  have hs : Real.sqrt n * Real.sqrt n = n := Real.mul_self_sqrt hn.le
  have hsn : 0 ≤ Real.sqrt n := Real.sqrt_nonneg n
  rw [newtonStep]
  rw [div_sub' _ _ _ (by norm_num : (2:ℝ) ≠ 0), div_le_div_iff_of_pos_right (by norm_num)]
  have : n / x ≤ Real.sqrt n := by
    rw [div_le_iff₀ hx]; nlinarith
  linarith

theorem newtonSeq_ge_sqrt {n : ℝ} (hn : 0 < n) (k : ℕ) :
    Real.sqrt n ≤ newtonSeq n (k + 1) :=
  sqrt_le_newtonStep hn (newtonSeq_pos hn k)

theorem newtonSeq_err {n : ℝ} (hn : 0 < n) :
    ∀ m, newtonSeq n (1 + m) - Real.sqrt n ≤ (newtonSeq n 1 - Real.sqrt n) / 2 ^ m := by
  intro m
  induction m with
  | zero => simp
  | succ m ih =>
    have hk : Real.sqrt n ≤ newtonSeq n (1 + m) := by
      have : 1 + m = m + 1 := by omega
      rw [this]; exact newtonSeq_ge_sqrt hn m
    have hpos : 0 < newtonSeq n (1 + m) := newtonSeq_pos hn _
    have step : newtonStep n (newtonSeq n (1 + m)) - Real.sqrt n ≤
        (newtonSeq n (1 + m) - Real.sqrt n) / 2 := newtonStep_err_half hn hpos hk
    have heq : (1 + (m + 1)) = (1 + m) + 1 := by omega
    rw [heq]
    have : newtonSeq n ((1 + m) + 1) = newtonStep n (newtonSeq n (1 + m)) := rfl
    rw [this]
    have h2 : (newtonSeq n (1 + m) - Real.sqrt n) / 2 ≤
        ((newtonSeq n 1 - Real.sqrt n) / 2 ^ m) / 2 := by linarith
    calc newtonStep n (newtonSeq n (1 + m)) - Real.sqrt n
        ≤ (newtonSeq n (1 + m) - Real.sqrt n) / 2 := step
      _ ≤ ((newtonSeq n 1 - Real.sqrt n) / 2 ^ m) / 2 := h2
      _ = (newtonSeq n 1 - Real.sqrt n) / 2 ^ (m + 1) := by
          rw [div_div, ← pow_succ]

/-- The convergence loop of `sqrt1` always exits for positive input: some
iteration changes the estimate by at most `1e-15`. -/
theorem sqrtStop_exists {n : ℝ} (hn : 0 < n) : ∃ k, sqrtStop n k := by
  set e : ℝ := newtonSeq n 1 - Real.sqrt n with he
  obtain ⟨m, hm⟩ := pow_unbounded_of_one_lt (α := ℝ) (e * 1e15) one_lt_two
  refine ⟨m + 1, ?_⟩
  have hge : Real.sqrt n ≤ newtonSeq n (m + 1) := newtonSeq_ge_sqrt hn m
  have hge2 : Real.sqrt n ≤ newtonSeq n (m + 2) := newtonSeq_ge_sqrt hn (m + 1)
  have hdec : newtonSeq n (m + 2) ≤ newtonSeq n (m + 1) := by
    have : newtonSeq n (m + 2) = newtonStep n (newtonSeq n (m + 1)) := rfl
    rw [this]
    exact newtonStep_le_self hn (newtonSeq_pos hn _) hge
  have herr : newtonSeq n (m + 1) - Real.sqrt n ≤ e / 2 ^ m := by
    have := newtonSeq_err hn m
    rwa [show 1 + m = m + 1 by omega] at this
  have hsmall : e / 2 ^ m ≤ 1e-15 := by
    rw [div_le_iff₀ (by positivity : (0:ℝ) < 2 ^ m)]
    linarith
  rw [sqrtStop, abs_of_nonneg (by linarith)]
  calc newtonSeq n (m + 1) - newtonSeq n (m + 1 + 1)
      ≤ newtonSeq n (m + 1) - Real.sqrt n := by
        have : newtonSeq n (m + 1 + 1) = newtonSeq n (m + 2) := rfl
        rw [this]; linarith
    _ ≤ e / 2 ^ m := herr
    _ ≤ 1e-15 := hsmall

open Classical in
/-- `sqrt1` of src/log.cpp: guard for negative input, special case for zero,
then the Babylonian do-while loop run until the first iteration whose
successive estimates differ by at most `1e-15`. -/
noncomputable def sqrt1 (n : ℝ) : ℝ :=
  if h1 : n < 0 then 0
  else if h0 : n = 0 then 0
  else newtonSeq n (Nat.find (sqrtStop_exists
    (lt_of_le_of_ne (not_lt.mp h1) (Ne.symm h0))) + 1)

theorem newtonStep_sq_sub (n x : ℝ) (hx : x ≠ 0) :
    newtonStep n x * newtonStep n x - n = (x - newtonStep n x) ^ 2 := by
  rw [newtonStep]; field_simp; ring

theorem sqrt1_zero : sqrt1 0 = 0 := by simp [sqrt1]

/-- C3: for every `n ≥ 0`, the value returned by `sqrt1`, multiplied by
itself, is within `1e-14` of `n`; `sqrt1 0 = 0`, and the Newton loop stops
once successive iterates differ by at most `1e-15` (the `sqrtStop`
condition used by `sqrt1`). -/
theorem C3_sqrt1_square_close (n : ℝ) (hn : 0 ≤ n) :
    |sqrt1 n * sqrt1 n - n| < 1e-14 ∧ sqrt1 0 = 0 := by
  refine ⟨?_, sqrt1_zero⟩
  rcases hn.eq_or_lt with h0 | hpos
  · rw [← h0, sqrt1_zero]; norm_num
  · have hrep : sqrt1 n = newtonSeq n (Nat.find (sqrtStop_exists hpos) + 1) := by
      rw [sqrt1, dif_neg (by linarith : ¬ n < 0), dif_neg hpos.ne']
    set k := Nat.find (sqrtStop_exists hpos) with hk
    have hstop : sqrtStop n k := Nat.find_spec (sqrtStop_exists hpos)
    rw [sqrtStop] at hstop
    have hxk : newtonSeq n k ≠ 0 := (newtonSeq_pos hpos k).ne'
    have hid : newtonSeq n (k + 1) * newtonSeq n (k + 1) - n
        = (newtonSeq n k - newtonSeq n (k + 1)) ^ 2 := by
      have : newtonSeq n (k + 1) = newtonStep n (newtonSeq n k) := rfl
      rw [this]
      exact newtonStep_sq_sub n (newtonSeq n k) hxk
    rw [hrep, hid, abs_of_nonneg (sq_nonneg _)]
    have habs : (newtonSeq n k - newtonSeq n (k + 1)) ^ 2
        = |newtonSeq n k - newtonSeq n (k + 1)| ^ 2 := (sq_abs _).symm
    rw [habs]
    have hnn : (0:ℝ) ≤ |newtonSeq n k - newtonSeq n (k + 1)| := abs_nonneg _
    nlinarith

theorem C3_sqrt1_square_close_witness :
    (0:ℝ) ≤ 2 ∧ |sqrt1 2 * sqrt1 2 - 2| < 1e-14 :=
  ⟨by norm_num, (C3_sqrt1_square_close 2 (by norm_num)).1⟩

/-- C10: for every `n > 0`, the Newton-Raphson do-while loop of `sqrt1`
(initial guess `n / 10`, update `(last + n/last)/2`) eventually satisfies
its exit condition `|last - result| ≤ 1e-15`, so the uncapped loop
terminates. -/
theorem C10_newton_loop_terminates (n : ℝ) (hn : 0 < n) : ∃ k, sqrtStop n k :=
  sqrtStop_exists hn

theorem C10_newton_loop_terminates_witness : (0:ℝ) < 1 ∧ ∃ k, sqrtStop 1 k :=
  ⟨one_pos, C10_newton_loop_terminates 1 one_pos⟩

/-! ## Natural logarithm (`ln1`, src/log.cpp)

The source (`M = 7`):

    double ln1(const double n) {
        const double ln10 = log(10.0);
        const double logs[] = {log(2.0), log(1.1), ..., log(1.0000001)};
        const double table[] = {2, 1.1, 1.01, ..., 1.0000001};
        if (n <= 0) return 0;
        int digits[M] = {0};
        double a = n;
        double kln10 = 0;
        while (a >= 10.0) { a = a / 10; kln10 += ln10; }
        for (int j = 0; j < M; j++) {
            do {
                double p = a * table[j];
                if (p >= 10.0) break;
                a = p;
                digits[j]++;
            } while (a < 10.0);
        }
        double result = (10.0 - a) / 10.0;
        for (int j = M - 1; j >= 0; j--) result = result + digits[j] * logs[j];
        result = ln10 - result;
        result += kln10;
        return result;
    }

Only the first `M = 7` entries of the 8-entry `table[]`/`logs[]` arrays are
read, so the model carries exactly those.  `lnDivLoop` is the exponent
extraction loop (returning the division count and the final `a`);
`lnMulLoop` is the inner do-while for one table entry (returning the digit
count and the final `a`); `lnDigitsLoop` runs it over the table. -/

noncomputable def ln10 : ℝ := Real.log 10

noncomputable def lnDivLoop (a : ℝ) : ℕ × ℝ :=
  if h : a ≥ 10 then ((lnDivLoop (a / 10)).1 + 1, (lnDivLoop (a / 10)).2)
  else (0, a)
termination_by (⌈Real.logb 10 a⌉).toNat
decreasing_by
  have ha : (0:ℝ) < a := by linarith
  have h1 : (1:ℝ) ≤ Real.logb 10 a := by
    rw [Real.le_logb_iff_rpow_le (by norm_num) ha, Real.rpow_one]; linarith
  have h2 : Real.logb 10 (a / 10) = Real.logb 10 a - 1 := by
    rw [Real.logb_div ha.ne' (by norm_num), Real.logb_self_eq_one (by norm_num)]
  have h3 : (1:ℤ) ≤ ⌈Real.logb 10 a⌉ := Int.ceil_pos.mpr (by linarith)
  rw [h2, Int.ceil_sub_one]
  omega

theorem lnDivLoop_div (a : ℝ) (h : a ≥ 10) :
    lnDivLoop a = ((lnDivLoop (a / 10)).1 + 1, (lnDivLoop (a / 10)).2) := by
  rw [lnDivLoop, dif_pos h]

theorem lnDivLoop_done (a : ℝ) (h : ¬ a ≥ 10) : lnDivLoop a = (0, a) := by
  rw [lnDivLoop, dif_neg h]

theorem lnDivLoop_lt_ten (a : ℝ) : (lnDivLoop a).2 < 10 := by
  induction a using lnDivLoop.induct with
  | case1 a h ih => rw [lnDivLoop_div a h]; exact ih
  | case2 a h => rw [lnDivLoop_done a h]; linarith [not_le.mp h]

theorem lnDivLoop_pos : ∀ {a : ℝ}, 0 < a → 0 < (lnDivLoop a).2 := by
  intro a
  induction a using lnDivLoop.induct with
  | case1 a h ih => intro ha; rw [lnDivLoop_div a h]; exact ih (by linarith)
  | case2 a h => intro ha; rw [lnDivLoop_done a h]; exact ha

theorem lnDivLoop_ge_one : ∀ {a : ℝ}, 1 ≤ a → 1 ≤ (lnDivLoop a).2 := by
  intro a
  induction a using lnDivLoop.induct with
  | case1 a h ih => intro ha; rw [lnDivLoop_div a h]; exact ih (by linarith)
  | case2 a h => intro ha; rw [lnDivLoop_done a h]; exact ha

noncomputable def lnMulLoop (t : ℝ) (ht : 1 < t) (a : ℝ) (ha : 0 < a) : ℕ × ℝ :=
  if h : a * t < 10 then
    ((lnMulLoop t ht (a * t) (mul_pos ha (lt_trans one_pos ht))).1 + 1,
     (lnMulLoop t ht (a * t) (mul_pos ha (lt_trans one_pos ht))).2)
  else (0, a)
termination_by (⌈Real.logb t (10 / a)⌉).toNat
decreasing_by
  have ht0 : (0:ℝ) < t := lt_trans one_pos ht
  have hta : t < 10 / a := by rw [lt_div_iff₀ ha]; linarith [mul_comm a t]
  have h1 : 1 < Real.logb t (10 / a) := by
    have := (Real.logb_lt_logb_iff ht ht0 (by positivity)).mpr hta
    rwa [Real.logb_self_eq_one ht] at this
  have h2 : Real.logb t (10 / (a * t)) = Real.logb t (10 / a) - 1 := by
    rw [← div_div, Real.logb_div (by positivity : (10:ℝ)/a ≠ 0) ht0.ne',
      Real.logb_self_eq_one ht]
  have h3 : (1:ℤ) ≤ ⌈Real.logb t (10 / a)⌉ := Int.ceil_pos.mpr (by linarith)
  rw [h2, Int.ceil_sub_one]
  omega

theorem lnMulLoop_mul (t : ℝ) (ht : 1 < t) (a : ℝ) (ha : 0 < a) (h : a * t < 10) :
    lnMulLoop t ht a ha =
      ((lnMulLoop t ht (a * t) (mul_pos ha (lt_trans one_pos ht))).1 + 1,
       (lnMulLoop t ht (a * t) (mul_pos ha (lt_trans one_pos ht))).2) := by
  rw [lnMulLoop, dif_pos h]

theorem lnMulLoop_done (t : ℝ) (ht : 1 < t) (a : ℝ) (ha : 0 < a) (h : ¬ a * t < 10) :
    lnMulLoop t ht a ha = (0, a) := by
  rw [lnMulLoop, dif_neg h]

theorem lnMulLoop_pos (t : ℝ) (ht : 1 < t) (a : ℝ) (ha : 0 < a) :
    0 < (lnMulLoop t ht a ha).2 := by
  induction a, ha using lnMulLoop.induct t ht with
  | case1 a ha h ih => rw [lnMulLoop_mul t ht a ha h]; exact ih
  | case2 a ha h => rw [lnMulLoop_done t ht a ha h]; exact ha

noncomputable def lnDigitsLoop :
    (ts : List ℝ) → (∀ t ∈ ts, 1 < t) → (a : ℝ) → 0 < a → List ℕ × ℝ
  | [], _, a, _ => ([], a)
  | t :: ts, hts, a, ha =>
    let r := lnMulLoop t (hts t (List.mem_cons_self t ts)) a ha
    let rest := lnDigitsLoop ts (fun u hu => hts u (List.mem_cons_of_mem t hu)) r.2
      (lnMulLoop_pos t (hts t (List.mem_cons_self t ts)) a ha)
    (r.1 :: rest.1, rest.2)

noncomputable def lnTable : List ℝ := [2, 1.1, 1.01, 1.001, 1.0001, 1.00001, 1.000001]

noncomputable def lnLogs : List ℝ :=
  [Real.log 2, Real.log 1.1, Real.log 1.01, Real.log 1.001, Real.log 1.0001,
   Real.log 1.00001, Real.log 1.000001]

theorem lnTable_gt_one : ∀ t ∈ lnTable, 1 < t := by
  intro t ht
  simp only [lnTable, List.mem_cons, List.not_mem_nil, or_false] at ht
  rcases ht with h | h | h | h | h | h | h <;> rw [h] <;> norm_num

/-- The recombination loop of `ln1`: `for (j = M-1; j >= 0; j--) result +=
digits[j] * logs[j]`, i.e. the last table entry is added first. -/
noncomputable def lnRecomb : List ℕ → List ℝ → ℝ → ℝ
  | d :: ds, l :: ls, r => lnRecomb ds ls r + d * l
  | _, _, r => r

noncomputable def ln1 (n : ℝ) : ℝ :=
  if h : n ≤ 0 then 0
  else
    let kd := lnDivLoop n
    let dm := lnDigitsLoop lnTable lnTable_gt_one kd.2 (lnDivLoop_pos (lt_of_not_le h))
    lnRecomb dm.1 lnLogs ((10 - dm.2) / 10) * (-1) + ln10 + kd.1 * ln10

/-- C2: `ln1` returns the sentinel `0` for every input `n ≤ 0`; the guard
fires before any computation. -/
theorem C2_ln1_sentinel_nonpos (n : ℝ) (h : n ≤ 0) : ln1 n = 0 := by
  rw [ln1, dif_pos h]

theorem C2_ln1_sentinel_nonpos_witness : ln1 0 = 0 ∧ ln1 (-1) = 0 :=
  ⟨C2_ln1_sentinel_nonpos 0 le_rfl, C2_ln1_sentinel_nonpos (-1) (by norm_num)⟩

/-! ## Exponential (`exp1`, src/log.cpp)

The source (`K = 7`):

    double exp1(const double n) {
        const double ln10 = log(10.0);
        const double logs[] = {ln10, log(2.0), log(1.1), ..., log(1.00000001)};
        const double table[] = {0, 2, 1.1, 1.01, ..., 1.00000001};
        if (n > 230) return 0;
        int digits[K + 1] = {0};
        double a = fabs(n);
        const bool is_neg = n < 0;
        for (int j = 0; j < K + 1; j++) {
            do {
                double s = a - logs[j];
                if (s < 0.0) break;
                a = s;
                digits[j]++;
            } while (a >= 0.0);
        }
        double result = a;
        result = result * pow(10, K - 1);
        for (int j = K; j > 0; j--) {
            for (int c = 0; c < digits[j]; c++) result = result * table[j] + 1;
            result = result / 10;
        }
        result = result + 0.1;
        result = result * 10;
        for (int j = 0; j < digits[0]; j++) result = result * 10;
        if (is_neg) result = 1.0 / result;
        return result;
    }

Only the first `K + 1 = 8` entries of the 10-entry `logs[]` array and the
entries `1..K` of `table[]` are read.  `subLoop` is the inner digit
extraction do-while (count of subtractions of `L` and final `a`),
`expDigitsLoop` runs it over the table of logarithms, `reconInner` is the
inner reconstruction loop (`digits[j]` applications of
`result * table[j] + 1`), and `expReconLoop d j r` is the reconstruction
`for (j = ...; j > 0; j--)` loop started at index `j`. -/

noncomputable def subLoop (L : ℝ) (hL : 0 < L) (a : ℝ) : ℕ × ℝ :=
  if h : a - L ≥ 0 then
    ((subLoop L hL (a - L)).1 + 1, (subLoop L hL (a - L)).2)
  else
    (0, a)
termination_by (⌈a / L⌉).toNat
decreasing_by
  have h1 : (1 : ℝ) ≤ a / L := (one_le_div hL).mpr (by linarith)
  have h2 : (a - L) / L = a / L - 1 := by field_simp
  have h3 : ⌈(a - L) / L⌉ = ⌈a / L⌉ - 1 := by rw [h2, Int.ceil_sub_one]
  have h4 : (1 : ℤ) ≤ ⌈a / L⌉ := Int.ceil_pos.mpr (by linarith)
  omega

theorem subLoop_sub (L : ℝ) (hL : 0 < L) (a : ℝ) (h : a - L ≥ 0) :
    subLoop L hL a = ((subLoop L hL (a - L)).1 + 1, (subLoop L hL (a - L)).2) := by
  rw [subLoop, dif_pos h]

theorem subLoop_done (L : ℝ) (hL : 0 < L) (a : ℝ) (h : ¬ a - L ≥ 0) :
    subLoop L hL a = (0, a) := by
  rw [subLoop, dif_neg h]

theorem subLoop_nonneg (L : ℝ) (hL : 0 < L) :
    ∀ a : ℝ, 0 ≤ a → 0 ≤ (subLoop L hL a).2 := by
  intro a
  induction a using subLoop.induct L hL with
  | case1 a h ih => intro _; rw [subLoop_sub L hL a h]; exact ih (by linarith)
  | case2 a h => intro ha; rw [subLoop_done L hL a h]; exact ha

noncomputable def expDigitsLoop :
    (Ls : List ℝ) → (∀ L ∈ Ls, 0 < L) → ℝ → List ℕ × ℝ
  | [], _, a => ([], a)
  | L :: Ls, h, a =>
    let r := subLoop L (h L (List.mem_cons_self L Ls)) a
    let rest := expDigitsLoop Ls (fun u hu => h u (List.mem_cons_of_mem L hu)) r.2
    (r.1 :: rest.1, rest.2)

noncomputable def expLogs : List ℝ :=
  [Real.log 10, Real.log 2, Real.log 1.1, Real.log 1.01, Real.log 1.001,
   Real.log 1.0001, Real.log 1.00001, Real.log 1.000001]

theorem expLogs_pos : ∀ L ∈ expLogs, 0 < L := by
  intro L hL
  simp only [expLogs, List.mem_cons, List.not_mem_nil, or_false] at hL
  rcases hL with h | h | h | h | h | h | h | h <;> rw [h] <;>
    exact Real.log_pos (by norm_num)

/-- `table[]` of `exp1` as a function of the index (entries `1..7` are the
ones the reconstruction loop reads; the unread entries do not matter, and
out-of-range indices default to 0). -/
noncomputable def expTable (j : ℕ) : ℝ :=
  [0, 2, 1.1, 1.01, 1.001, 1.0001, 1.00001, 1.000001].getD j 0

/-- Inner reconstruction loop: `digits[j]` repetitions of
`result = result * table[j] + 1`. -/
noncomputable def reconInner (t : ℝ) : ℕ → ℝ → ℝ
  | 0, r => r
  | c + 1, r => reconInner t c (r * t + 1)

/-- Outer reconstruction loop of `exp1`, started at index `j` and counting
down to (and excluding) index 0: at each index, `digits[j]` inner steps
followed by a division by 10. -/
noncomputable def expReconLoop (d : ℕ → ℕ) : ℕ → ℝ → ℝ
  | 0, r => r
  | j + 1, r => expReconLoop d j (reconInner (expTable (j + 1)) (d (j + 1)) r / 10)

noncomputable def exp1 (n : ℝ) : ℝ :=
  if n > 230 then 0
  else
    let e := expDigitsLoop expLogs expLogs_pos |n|
    let d : ℕ → ℕ := fun j => e.1.getD j 0
    let r1 := expReconLoop d 7 (e.2 * 10 ^ (6 : ℕ))
    let r2 := (r1 + 0.1) * 10
    let r3 := r2 * 10 ^ (d 0)
    if n < 0 then 1 / r3 else r3

theorem expDigitsLoop_nonneg :
    ∀ (Ls : List ℝ) (h : ∀ L ∈ Ls, 0 < L) (a : ℝ), 0 ≤ a →
      0 ≤ (expDigitsLoop Ls h a).2 := by
  intro Ls
  induction Ls with
  | nil => intro h a ha; exact ha
  | cons L Ls ih =>
    intro h a ha
    exact ih _ _ (subLoop_nonneg L (h L (List.mem_cons_self L Ls)) a ha)

theorem expTable_nonneg (j : ℕ) : 0 ≤ expTable j := by
  rcases j with _ | _ | _ | _ | _ | _ | _ | _ | j <;> simp [expTable] <;> norm_num

theorem reconInner_nonneg (t : ℝ) (ht : 0 ≤ t) :
    ∀ (c : ℕ) (r : ℝ), 0 ≤ r → 0 ≤ reconInner t c r := by
  intro c
  induction c with
  | zero => intro r hr; exact hr
  | succ c ih => intro r hr; exact ih _ (by positivity)

theorem expReconLoop_nonneg (d : ℕ → ℕ) :
    ∀ (j : ℕ) (r : ℝ), 0 ≤ r → 0 ≤ expReconLoop d j r := by
  intro j
  induction j with
  | zero => intro r hr; exact hr
  | succ j ih =>
    intro r hr
    apply ih
    have h1 : 0 ≤ reconInner (expTable (j + 1)) (d (j + 1)) r :=
      reconInner_nonneg _ (expTable_nonneg _) _ _ hr
    positivity

/-- C1: `exp1` returns the sentinel `0` exactly for inputs above 230, and a
strictly positive value for every input `n ≤ 230` (arbitrarily large
negative inputs included); in particular `exp1 231 = 0` and
`0 < exp1 230`. -/
theorem C1_exp1_sentinel_and_positive (n : ℝ) :
    (230 < n → exp1 n = 0) ∧ (n ≤ 230 → 0 < exp1 n) := by
  constructor
  · intro h; rw [exp1, if_pos h]
  · intro h
    rw [exp1, if_neg (not_lt.mpr h)]
    have hrem : 0 ≤ (expDigitsLoop expLogs expLogs_pos |n|).2 :=
      expDigitsLoop_nonneg expLogs expLogs_pos |n| (abs_nonneg n)
    have hr1 : 0 ≤ expReconLoop (fun j => (expDigitsLoop expLogs expLogs_pos |n|).1.getD j 0) 7
        ((expDigitsLoop expLogs expLogs_pos |n|).2 * 10 ^ (6 : ℕ)) :=
      expReconLoop_nonneg _ 7 _ (by positivity)
    have hr3 : (0:ℝ) <
        (expReconLoop (fun j => (expDigitsLoop expLogs expLogs_pos |n|).1.getD j 0) 7
          ((expDigitsLoop expLogs expLogs_pos |n|).2 * 10 ^ (6 : ℕ)) + 0.1) * 10 *
        10 ^ ((expDigitsLoop expLogs expLogs_pos |n|).1.getD 0 0) := by positivity
    by_cases hneg : n < 0
    · rw [if_pos hneg]; positivity
    · rw [if_neg hneg]; exact hr3

theorem C1_exp1_sentinel_and_positive_witness :
    exp1 231 = 0 ∧ 0 < exp1 230 :=
  ⟨(C1_exp1_sentinel_and_positive 231).1 (by norm_num),
   (C1_exp1_sentinel_and_positive 230).2 le_rfl⟩

/-- One reconstruction stage per list element, first element processed
first: `reconList [(c1,t1), ...] r` applies `c1` inner steps with ratio
`t1` and divides by 10, then continues with the rest. -/
noncomputable def reconList (ps : List (ℕ × ℝ)) (r : ℝ) : ℝ :=
  ps.foldl (fun r p => reconInner p.2 p.1 r / 10) r

/-- The reconstruction order asserted by the spec sentence of C5: the digit
count of the most significant table entry (entry 1, ratio 2) is applied
first, then entry 2, ..., down to the least significant entry `K = 7`. -/
noncomputable def expReconMsbFirst (d : ℕ → ℕ) (r : ℝ) : ℝ :=
  reconList [(d 1, expTable 1), (d 2, expTable 2), (d 3, expTable 3),
    (d 4, expTable 4), (d 5, expTable 5), (d 6, expTable 6), (d 7, expTable 7)] r

/-- The opposite order: least significant table entry (entry `K = 7`)
first, down to entry 1, the ln(10) entry 0 excluded. -/
noncomputable def expReconLsbFirst (d : ℕ → ℕ) (r : ℝ) : ℝ :=
  reconList [(d 7, expTable 7), (d 6, expTable 6), (d 5, expTable 5),
    (d 4, expTable 4), (d 3, expTable 3), (d 2, expTable 2), (d 1, expTable 1)] r

/-- C5 (counterexample): the reconstruction loop of `exp1` does not apply
the digit counts most-significant-entry first: on the digit vector with a
single digit at entry 1 (which arises, e.g., for input `ln 2`) and seed 0,
the loop of the code yields `1/10` while the most-significant-first order
of the claim yields `1/10^7`. -/
theorem C5_recon_msb_first_counterexample :
    expReconLoop (fun j => if j = 1 then 1 else 0) 7 0 = 1 / 10 ∧
    expReconMsbFirst (fun j => if j = 1 then 1 else 0) 0 = 1 / 10 ^ 7 ∧
    (1 / 10 : ℝ) ≠ 1 / 10 ^ 7 := by
  refine ⟨?_, ?_, by norm_num⟩
  · norm_num [expReconLoop, reconInner, expTable]
  · norm_num [expReconMsbFirst, reconList, reconInner, expTable]

/-- C5 (amended): in the reconstruction phase of `exp1`, the digit counts
are applied starting from the LEAST significant table entry (entry `K = 7`)
and proceeding down to entry 1 (the ln(10) entry 0 excluded), one
`result = result * ratio + 1` step per digit count followed by a division
by 10 at each entry — i.e. the countdown loop of the code coincides with
the least-significant-first fold, the same least-to-most-significant order
rationale as the recombination of `ln1`. -/
theorem C5_recon_lsb_first (d : ℕ → ℕ) (r : ℝ) :
    expReconLoop d 7 r = expReconLsbFirst d r := rfl

/-- C6 (counterexample): for the positive input `1/2 < 1`, the exponent
extraction loop of `ln1` performs no division and leaves the mantissa at
`1/2`, which is below 1, so the remaining mantissa is not in `[1, 10)` for
every positive input. -/
theorem C6_mantissa_counterexample :
    (0:ℝ) < 1 / 2 ∧ (lnDivLoop (1 / 2)).2 < 1 := by
  constructor
  · norm_num
  · rw [lnDivLoop_done (1 / 2) (by norm_num)]; norm_num

/-- C6 (amended): for every input `n ≥ 1`, after the exponent-extraction
loop of `ln1` the remaining mantissa lies in `[1, 10)` (for positive inputs
below 1 the loop does not run and the mantissa stays below 1). -/
theorem C6_mantissa_in_range (n : ℝ) (hn : 1 ≤ n) :
    1 ≤ (lnDivLoop n).2 ∧ (lnDivLoop n).2 < 10 :=
  ⟨lnDivLoop_ge_one hn, lnDivLoop_lt_ten n⟩

theorem C6_mantissa_in_range_witness :
    (1:ℝ) ≤ 50 ∧ (1 ≤ (lnDivLoop 50).2 ∧ (lnDivLoop 50).2 < 10) :=
  ⟨by norm_num, C6_mantissa_in_range 50 (by norm_num)⟩

/-! ## Range reduction (`range_reduction`, src/trig.cpp)

The source:

    constexpr double pi = 3.141592653589793;

    double range_reduction(double n) {
        int exp = int(log10(n));
        while (exp > 0) {
            const double two_pi = 2 * pi * pow(10, exp);
            if (n >= two_pi) n = n - two_pi;
            else exp--;
        }
        while (n > 0) n = n - 2 * pi;
        n = n + 2 * pi;
        return n;
    }

`pi` is the rational constant of the source (not the real number π).
`dtoi` is the C double-to-int cast (truncation toward zero).  `rrLoop1` and
`rrLoop2` are the two while loops. -/

noncomputable def pi : ℝ := 3.141592653589793

/-- C cast from `double` to `int`: truncation toward zero. -/
noncomputable def dtoi (x : ℝ) : ℤ := if 0 ≤ x then ⌊x⌋ else ⌈x⌉

noncomputable def rrLoop1 (e : ℤ) (n : ℝ) : ℝ :=
  if h : 0 < e then
    if h2 : n ≥ 2 * pi * (10:ℝ) ^ e then rrLoop1 e (n - 2 * pi * (10:ℝ) ^ e)
    else rrLoop1 (e - 1) n
  else n
termination_by (e.toNat, (⌈n / (2 * pi * (10:ℝ) ^ e)⌉).toNat)
decreasing_by
  · have hp : (0:ℝ) < 2 * pi * (10:ℝ) ^ e := by
      have : (0:ℝ) < pi := by norm_num [pi]
      positivity
    have h1 : (1:ℝ) ≤ n / (2 * pi * (10:ℝ) ^ e) := (one_le_div hp).mpr h2
    have h2b : (n - 2 * pi * (10:ℝ) ^ e) / (2 * pi * (10:ℝ) ^ e)
        = n / (2 * pi * (10:ℝ) ^ e) - 1 := by field_simp
    have h3 : ⌈(n - 2 * pi * (10:ℝ) ^ e) / (2 * pi * (10:ℝ) ^ e)⌉
        = ⌈n / (2 * pi * (10:ℝ) ^ e)⌉ - 1 := by rw [h2b, Int.ceil_sub_one]
    have h4 : (1:ℤ) ≤ ⌈n / (2 * pi * (10:ℝ) ^ e)⌉ := Int.ceil_pos.mpr (by linarith)
    apply Prod.Lex.right
    omega
  · apply Prod.Lex.left
    omega

noncomputable def rrLoop2 (n : ℝ) : ℝ :=
  if h : n > 0 then rrLoop2 (n - 2 * pi) else n
termination_by (⌈n / (2 * pi)⌉).toNat
decreasing_by
  have hp : (0:ℝ) < 2 * pi := by norm_num [pi]
  have h2b : (n - 2 * pi) / (2 * pi) = n / (2 * pi) - 1 := by field_simp
  have h3 : ⌈(n - 2 * pi) / (2 * pi)⌉ = ⌈n / (2 * pi)⌉ - 1 := by
    rw [h2b, Int.ceil_sub_one]
  have h4 : (1:ℤ) ≤ ⌈n / (2 * pi)⌉ := Int.ceil_pos.mpr (div_pos h hp)
  omega

noncomputable def range_reduction (n : ℝ) : ℝ :=
  rrLoop2 (rrLoop1 (dtoi (Real.logb 10 n)) n) + 2 * pi

theorem rrLoop1_step (e : ℤ) (n : ℝ) (h : 0 < e) (h2 : n ≥ 2 * pi * (10:ℝ) ^ e) :
    rrLoop1 e n = rrLoop1 e (n - 2 * pi * (10:ℝ) ^ e) := by
  rw [rrLoop1]; rw [dif_pos h, dif_pos h2]

theorem rrLoop1_dec (e : ℤ) (n : ℝ) (h : 0 < e) (h2 : ¬ n ≥ 2 * pi * (10:ℝ) ^ e) :
    rrLoop1 e n = rrLoop1 (e - 1) n := by
  rw [rrLoop1]; rw [dif_pos h, dif_neg h2]

theorem rrLoop1_done (e : ℤ) (n : ℝ) (h : ¬ 0 < e) : rrLoop1 e n = n := by
  rw [rrLoop1]; rw [dif_neg h]

theorem rrLoop2_step (n : ℝ) (h : n > 0) : rrLoop2 n = rrLoop2 (n - 2 * pi) := by
  rw [rrLoop2]; rw [dif_pos h]

theorem rrLoop2_done (n : ℝ) (h : ¬ n > 0) : rrLoop2 n = n := by
  rw [rrLoop2]; rw [dif_neg h]

theorem rrLoop1_nonneg : ∀ (e : ℤ) (n : ℝ), 0 ≤ n → 0 ≤ rrLoop1 e n := by
  intro e n
  induction e, n using rrLoop1.induct with
  | case1 e n h h2 ih =>
    intro hn
    rw [rrLoop1_step e n h h2]
    have hp : (0:ℝ) < 2 * pi * (10:ℝ) ^ e := by
      have : (0:ℝ) < pi := by norm_num [pi]
      positivity
    exact ih (by linarith)
  | case2 e n h h2 ih => intro hn; rw [rrLoop1_dec e n h h2]; exact ih hn
  | case3 e n h => intro hn; rw [rrLoop1_done e n h]; exact hn

theorem rrLoop2_nonpos : ∀ n : ℝ, rrLoop2 n ≤ 0 := by
  intro n
  induction n using rrLoop2.induct with
  | case1 n h ih => rw [rrLoop2_step n h]; exact ih
  | case2 n h => rw [rrLoop2_done n h]; exact not_lt.mp h

theorem rrLoop2_lower : ∀ n : ℝ, -(2 * pi) < rrLoop2 n ∨ rrLoop2 n = n := by
  intro n
  induction n using rrLoop2.induct with
  | case1 n h ih =>
    rw [rrLoop2_step n h]
    rcases ih with hlt | heq
    · exact Or.inl hlt
    · left; rw [heq]; linarith
  | case2 n h => exact Or.inr (rrLoop2_done n h)

/-- C4: for every non-negative input angle, `range_reduction` returns a
value in the half-open interval `(0, 2*pi]` (`pi` being the double constant
of the source), and for input 0 it returns exactly `2*pi`. -/
theorem C4_range_reduction_interval (n : ℝ) (hn : 0 ≤ n) :
    (0 < range_reduction n ∧ range_reduction n ≤ 2 * pi) ∧
      range_reduction 0 = 2 * pi := by
  have hpi : (0:ℝ) < pi := by norm_num [pi]
  constructor
  · rw [range_reduction]
    set m := rrLoop1 (dtoi (Real.logb 10 n)) n with hm
    have hm0 : 0 ≤ m := rrLoop1_nonneg _ n hn
    have h1 : rrLoop2 m ≤ 0 := rrLoop2_nonpos m
    have h2 : -(2 * pi) < rrLoop2 m := by
      rcases rrLoop2_lower m with hlt | heq
      · exact hlt
      · rw [heq]; linarith
    constructor <;> linarith
  · rw [range_reduction]
    have hlogb : Real.logb 10 0 = 0 := by simp [Real.logb]
    have hdtoi : dtoi (Real.logb 10 0) = 0 := by
      rw [hlogb]; simp [dtoi]
    rw [hdtoi, rrLoop1_done 0 0 (by norm_num), rrLoop2_done 0 (by norm_num)]
    ring

theorem C4_range_reduction_interval_witness :
    (0 < range_reduction 100 ∧ range_reduction 100 ≤ 2 * pi) ∧
      range_reduction 0 = 2 * pi :=
  C4_range_reduction_interval 100 (by norm_num)

/-! ## Tangent (`tan1`, src/trig.cpp)

The source (`K = 7`):

    static const double tans[] = {atan(1), atan(0.1), ..., atan(0.000001)};
    static const double table[] = {1, 0.1, 0.01, ..., 0.000001};

    double tan1(const double n) {
        double result = 0;
        int digits[K] = {0};
        double y = fabs(n);
        const bool is_neg = n < 0;
        y = range_reduction(y);
        for (int i = 0; i < K; i++) {
            while (y >= 0) { y = y - tans[i]; digits[i]++; }
            y += tans[i];
            digits[i]--;
        }
        double x = 1;
        for (int i = K - 1; i >= 0; i--) {
            for (int j = 0; j < digits[i]; j++) {
                double xnew = x * table[i];
                double ynew = y * table[i];
                x = x - ynew;
                y = y + xnew;
            }
        }
        if (x == 0) return 0;
        result = y / x;
        if (is_neg) result = -result;
        return result;
    }

`subAllLoop` is the inner `while (y >= 0)` loop (number of subtractions and
final negative `y`); the per-entry digit is that count minus one after the
single add-back, as in the source.  After range reduction `y` is positive,
so the count is at least 1; the model uses natural-number digits (for a
hypothetical zero count the truncated subtraction gives digit 0, whose
rotation behaviour — zero iterations — agrees with the C `for` loop on a
`-1` digit).  `rotSteps` is the inner rotation `for` loop and `rotAll`
the outer one (entry `K-1` processed first). -/

noncomputable def subAllLoop (t : ℝ) (ht : 0 < t) (y : ℝ) : ℕ × ℝ :=
  if h : y ≥ 0 then ((subAllLoop t ht (y - t)).1 + 1, (subAllLoop t ht (y - t)).2)
  else (0, y)
termination_by (⌈y / t⌉ + 1).toNat
decreasing_by
  have h1 : (0:ℝ) ≤ y / t := div_nonneg h ht.le
  have h2 : (y - t) / t = y / t - 1 := by field_simp
  have h3 : ⌈(y - t) / t⌉ = ⌈y / t⌉ - 1 := by rw [h2, Int.ceil_sub_one]
  have h4 : (0:ℤ) ≤ ⌈y / t⌉ := Int.ceil_nonneg h1
  omega

theorem subAllLoop_sub (t : ℝ) (ht : 0 < t) (y : ℝ) (h : y ≥ 0) :
    subAllLoop t ht y
      = ((subAllLoop t ht (y - t)).1 + 1, (subAllLoop t ht (y - t)).2) := by
  rw [subAllLoop, dif_pos h]

theorem subAllLoop_done (t : ℝ) (ht : 0 < t) (y : ℝ) (h : ¬ y ≥ 0) :
    subAllLoop t ht y = (0, y) := by
  rw [subAllLoop, dif_neg h]

/-- Digit extraction of `tan1` over the table of arctangents: for each
entry, run the subtract-while-nonnegative loop, add the entry back once and
decrement the count once. -/
noncomputable def tanExtract :
    (ts : List ℝ) → (∀ t ∈ ts, 0 < t) → ℝ → List ℕ × ℝ
  | [], _, y => ([], y)
  | t :: ts, h, y =>
    let r := subAllLoop t (h t (List.mem_cons_self t ts)) y
    let rest := tanExtract ts (fun u hu => h u (List.mem_cons_of_mem t hu)) (r.2 + t)
    ((r.1 - 1) :: rest.1, rest.2)

noncomputable def tans : List ℝ :=
  [Real.arctan 1, Real.arctan 0.1, Real.arctan 0.01, Real.arctan 0.001,
   Real.arctan 0.0001, Real.arctan 0.00001, Real.arctan 0.000001]

noncomputable def trigTable : List ℝ := [1, 0.1, 0.01, 0.001, 0.0001, 0.00001, 0.000001]

theorem arctan_pos_of_pos {x : ℝ} (hx : 0 < x) : 0 < Real.arctan x := by
  have h := Real.arctan_strictMono hx
  rwa [Real.arctan_zero] at h

theorem tans_pos : ∀ t ∈ tans, 0 < t := by
  intro t ht
  simp only [tans, List.mem_cons, List.not_mem_nil, or_false] at ht
  rcases ht with h | h | h | h | h | h | h <;> rw [h] <;>
    exact arctan_pos_of_pos (by norm_num)

/-- `digits[i]` iterations of the pseudo-rotation with ratio `t`:
`x = x - y*t; y = y + x*t` (simultaneous, via the `xnew`/`ynew` temporaries
of the source). -/
noncomputable def rotSteps (t : ℝ) : ℕ → ℝ × ℝ → ℝ × ℝ
  | 0, p => p
  | c + 1, p => rotSteps t c (p.1 - p.2 * t, p.2 + p.1 * t)

/-- The outer rotation loop of `tan1`: pairs `(digits[i], table[i])`, the
LAST list entry processed first (the C loop counts `i` down from `K-1`). -/
noncomputable def rotAll : List (ℕ × ℝ) → ℝ × ℝ → ℝ × ℝ
  | [], p => p
  | (c, t) :: ps, p => rotSteps t c (rotAll ps p)

/-- The state `(x, y)` of `tan1` after range reduction, digit extraction
and rotation. -/
noncomputable def tanCore (n : ℝ) : ℝ × ℝ :=
  let er := tanExtract tans tans_pos (range_reduction |n|)
  rotAll (er.1.zip trigTable) (1, er.2)

noncomputable def tan1 (n : ℝ) : ℝ :=
  if (tanCore n).1 = 0 then 0
  else if n < 0 then -((tanCore n).2 / (tanCore n).1)
  else (tanCore n).2 / (tanCore n).1

theorem subAllLoop_eval (t : ℝ) (ht : 0 < t) :
    ∀ (k : ℕ) (y : ℝ), (k:ℝ) * t ≤ y → y < ((k:ℝ) + 1) * t →
      subAllLoop t ht y = (k + 1, y - ((k:ℝ) + 1) * t) := by
  intro k
  induction k with
  | zero =>
    intro y h1 h2
    rw [subAllLoop_sub t ht y (by simpa using h1)]
    rw [subAllLoop_done t ht (y - t) (by push_neg; push_cast at h2; nlinarith)]
    norm_num
  | succ k ih =>
    intro y h1 h2
    have hy0 : y ≥ 0 := le_trans (by positivity) h1
    rw [subAllLoop_sub t ht y hy0]
    have e1 : (k:ℝ) * t ≤ y - t := by push_cast at h1 ⊢; nlinarith
    have e2 : y - t < ((k:ℝ) + 1) * t := by push_cast at h2 ⊢; nlinarith
    rw [ih (y - t) e1 e2]
    simp only [Prod.mk.injEq]
    refine ⟨trivial, by push_cast; ring⟩

theorem tanExtract_cons_eval (t : ℝ) (ts : List ℝ) (h : ∀ u ∈ t :: ts, 0 < u)
    (y : ℝ) (k : ℕ) (h1 : (k:ℝ) * t ≤ y) (h2 : y < ((k:ℝ) + 1) * t) :
    tanExtract (t :: ts) h y
      = (k :: (tanExtract ts (fun u hu => h u (List.mem_cons_of_mem t hu))
            (y - (k:ℝ) * t)).1,
         (tanExtract ts (fun u hu => h u (List.mem_cons_of_mem t hu))
            (y - (k:ℝ) * t)).2) := by
  have hs := subAllLoop_eval t (h t (List.mem_cons_self t ts)) k y h1 h2
  simp only [tanExtract, hs]
  have harg : y - ((k:ℝ) + 1) * t + t = y - (k:ℝ) * t := by ring
  rw [harg]
  norm_num

theorem tanExtract_at_zero :
    ∀ (ts : List ℝ) (h : ∀ t ∈ ts, 0 < t),
      tanExtract ts h 0 = (ts.map (fun _ => 0), 0) := by
  intro ts
  induction ts with
  | nil => intro h; rfl
  | cons t ts ih =>
    intro h
    have ht : 0 < t := h t (List.mem_cons_self t ts)
    rw [tanExtract_cons_eval t ts h 0 0 (by norm_num) (by push_cast; linarith)]
    have h0 : (0:ℝ) - (0:ℕ) * t = 0 := by norm_num
    rw [h0, ih]
    simp

theorem tanExtract_tans_pi (h : ∀ t ∈ tans, 0 < t) :
    tanExtract tans h Real.pi = ([4, 0, 0, 0, 0, 0, 0], 0) := by
  have hpi : (0:ℝ) < Real.pi := Real.pi_pos
  rw [show tanExtract tans h Real.pi
      = tanExtract (Real.arctan 1 :: [Real.arctan 0.1, Real.arctan 0.01,
          Real.arctan 0.001, Real.arctan 0.0001, Real.arctan 0.00001,
          Real.arctan 0.000001]) h Real.pi from rfl]
  rw [tanExtract_cons_eval _ _ h Real.pi 4
    (by rw [Real.arctan_one]; push_cast; linarith)
    (by rw [Real.arctan_one]; push_cast; linarith)]
  have h0 : Real.pi - ((4:ℕ):ℝ) * Real.arctan 1 = 0 := by
    rw [Real.arctan_one]; push_cast; ring
  rw [h0, tanExtract_at_zero]
  rfl

theorem rotAll_pi : rotAll ([4, 0, 0, 0, 0, 0, 0].zip trigTable) (1, 0) = (-4, 0) := by
  rw [trigTable]
  norm_num [rotAll, rotSteps, List.zip]

/-- `range_reduction` fixes any input in `[1, 2*pi]`: the exponent is 0, and
the second loop subtracts `2*pi` once and adds it back. -/
theorem range_reduction_fix (x : ℝ) (h1 : 1 ≤ x) (h2 : x ≤ 2 * pi) :
    range_reduction x = x := by
  have hx : (0:ℝ) < x := by linarith
  have hx10 : x < 10 := by rw [pi] at h2; norm_num at h2; linarith
  have hlb : 0 ≤ Real.logb 10 x := Real.logb_nonneg (by norm_num) h1
  have hub : Real.logb 10 x < 1 := by
    have := (Real.logb_lt_logb_iff (b := 10) (by norm_num) hx (by norm_num)).mpr hx10
    rwa [Real.logb_self_eq_one (by norm_num)] at this
  have hd : dtoi (Real.logb 10 x) = 0 := by
    rw [dtoi, if_pos hlb, Int.floor_eq_zero_iff]
    exact ⟨hlb, hub⟩
  rw [range_reduction, hd, rrLoop1_done 0 x (by norm_num)]
  rw [rrLoop2_step x hx, rrLoop2_done (x - 2 * pi) (by linarith)]
  ring

theorem tanCore_pi : tanCore Real.pi = (-4, 0) := by
  have habs : |Real.pi| = Real.pi := abs_of_pos Real.pi_pos
  have hrr : range_reduction |Real.pi| = Real.pi := by
    rw [habs]
    refine range_reduction_fix Real.pi (by linarith [Real.pi_gt_three]) ?_
    have h := Real.pi_lt_315
    rw [pi]; norm_num; linarith
  simp only [tanCore, hrr, tanExtract_tans_pi tans_pos]
  exact rotAll_pi

/-- C7 (counterexample): `tan1` does not return 0 only in the degenerate
`x == 0` case: at input π (which range reduction leaves at π and the CORDIC
rotation takes to the state `(-4, 0)`), the function returns `0 / -4 = 0`
— the legitimate value of tan π — while the rotated x-coordinate is `-4`,
not 0.  So "returns 0 exactly when x = 0" fails in the left-to-right
direction. -/
theorem C7_tan_sentinel_counterexample :
    tan1 Real.pi = 0 ∧ (tanCore Real.pi).1 ≠ 0 := by
  constructor
  · rw [tan1, tanCore_pi]
    simp [not_lt.mpr Real.pi_pos.le]
  · rw [tanCore_pi]; norm_num

theorem rotAll_pi_div_two :
    rotAll ([2, 0, 0, 0, 0, 0, 0].zip trigTable) (1, 0) = (0, 2) := by
  rw [trigTable]
  norm_num [rotAll, rotSteps, List.zip]

theorem tanExtract_tans_pi_div_two (h : ∀ t ∈ tans, 0 < t) :
    tanExtract tans h (Real.pi / 2) = ([2, 0, 0, 0, 0, 0, 0], 0) := by
  have hpi : (0:ℝ) < Real.pi := Real.pi_pos
  rw [show tanExtract tans h (Real.pi / 2)
      = tanExtract (Real.arctan 1 :: [Real.arctan 0.1, Real.arctan 0.01,
          Real.arctan 0.001, Real.arctan 0.0001, Real.arctan 0.00001,
          Real.arctan 0.000001]) h (Real.pi / 2) from rfl]
  rw [tanExtract_cons_eval _ _ h (Real.pi / 2) 2
    (by rw [Real.arctan_one]; push_cast; linarith)
    (by rw [Real.arctan_one]; push_cast; linarith)]
  have h0 : Real.pi / 2 - ((2:ℕ):ℝ) * Real.arctan 1 = 0 := by
    rw [Real.arctan_one]; push_cast; ring
  rw [h0, tanExtract_at_zero]
  rfl

theorem tanCore_pi_div_two : tanCore (Real.pi / 2) = (0, 2) := by
  have habs : |Real.pi / 2| = Real.pi / 2 := abs_of_pos (by positivity)
  have hrr : range_reduction |Real.pi / 2| = Real.pi / 2 := by
    rw [habs]
    refine range_reduction_fix (Real.pi / 2) (by linarith [Real.pi_gt_three]) ?_
    have h := Real.pi_lt_315
    rw [pi]; norm_num; linarith
  simp only [tanCore, hrr, tanExtract_tans_pi_div_two tans_pos]
  exact rotAll_pi_div_two

/-- C7 (amended): `tan1` returns the sentinel 0 whenever the rotated
x-coordinate is 0 (if `x == 0` the guard fires before the division), and in
particular `tan1 (π/2) = 0` — at `π/2` the rotation reaches the state
`(0, 2)` exactly — rather than a large or infinite value.  (The converse
of the guard does not hold: `tan1` also returns 0 at inputs whose rotated
y-coordinate is 0, where 0 is the legitimate tangent value.) -/
theorem C7_tan_sentinel_amended :
    (∀ n : ℝ, (tanCore n).1 = 0 → tan1 n = 0) ∧ tan1 (Real.pi / 2) = 0 := by
  constructor
  · intro n h; rw [tan1, if_pos h]
  · rw [tan1, tanCore_pi_div_two]
    norm_num

theorem C7_tan_sentinel_amended_witness : tan1 (Real.pi / 2) = 0 :=
  C7_tan_sentinel_amended.1 (Real.pi / 2) (by rw [tanCore_pi_div_two])

/-! ## Arctangent (`atan1`, src/trig.cpp)

The source (`K = 7`, same `tans[]`/`table[]` as `tan1`):

    double atan1(const double n) {
        double result = 0;
        int digits[K] = {0};
        double x = 1;
        double y = fabs(n);
        const bool is_neg = n < 0;
        for (int i = 0; i < K; i++) {
            while (true) {
                double xnew = x * table[i];
                double ynew = y * table[i];
                if ((y - xnew) < 0) break;
                x = x + ynew;
                y = y - xnew;
                digits[i]++;
            }
        }
        result = y / x;
        for (int j = K - 1; j >= 0; j--) result = result + digits[j] * tans[j];
        if (is_neg) result = -result;
        return result;
    }

`atanLoop` is the inner vectoring loop for one ratio `t = table[i]`
(digit count and final `(x, y)`); it carries the invariant `1 ≤ x` as a
termination aid.  `atanExtractLoop` runs it over the ratio table; the
recombination `atanRecomb` adds `digits[j] * tans[j]` from the last table
entry down to the first, exactly as in `ln1`. -/

noncomputable def atanLoop (t : ℝ) (ht : 0 < t) (x y : ℝ) (hx : 1 ≤ x) : ℕ × ℝ × ℝ :=
  if h : y - x * t ≥ 0 then
    ((atanLoop t ht (x + y * t) (y - x * t)
        (by nlinarith [mul_pos (lt_of_lt_of_le (by nlinarith) (le_of_eq rfl) : (0:ℝ) < x * t) ht])).1 + 1,
     (atanLoop t ht (x + y * t) (y - x * t)
        (by nlinarith [mul_pos (lt_of_lt_of_le (by nlinarith) (le_of_eq rfl) : (0:ℝ) < x * t) ht])).2)
  else (0, x, y)
termination_by (⌈y / t⌉).toNat
decreasing_by
  all_goals {
    have hxt : (0:ℝ) < x * t := by nlinarith
    have hyx : x * t ≤ y := by linarith
    have h1 : (1:ℝ) ≤ y / t := by
      rw [le_div_iff₀ ht]; nlinarith
    have h2 : (y - x * t) / t ≤ y / t - 1 := by
      rw [div_le_iff₀ ht]
      have : (y / t - 1) * t = y - t := by field_simp
      rw [this]
      nlinarith
    have h3 : ⌈(y - x * t) / t⌉ ≤ ⌈y / t⌉ - 1 := by
      calc ⌈(y - x * t) / t⌉ ≤ ⌈y / t - 1⌉ := Int.ceil_le_ceil h2
        _ = ⌈y / t⌉ - 1 := Int.ceil_sub_one _
    have h4 : (1:ℤ) ≤ ⌈y / t⌉ := Int.ceil_pos.mpr (by positivity)
    omega }

theorem atanLoop_done_eval (t : ℝ) (ht : 0 < t) (x y : ℝ) (hx : 1 ≤ x)
    (h : ¬ y - x * t ≥ 0) : atanLoop t ht x y hx = (0, x, y) := by
  rw [atanLoop, dif_neg h]

theorem atanLoop_step_eval (t : ℝ) (ht : 0 < t) (x y x2 y2 : ℝ) (hx : 1 ≤ x)
    (hcond : y - x * t ≥ 0) (hx2 : x + y * t = x2) (hy2 : y - x * t = y2)
    (d : ℕ) (xf yf : ℝ)
    (hrec : ∀ h2 : 1 ≤ x2, atanLoop t ht x2 y2 h2 = (d, xf, yf)) :
    atanLoop t ht x y hx = (d + 1, xf, yf) := by
  subst hx2
  subst hy2
  rw [atanLoop, dif_pos hcond, hrec]

theorem atanLoop_inv_step (t : ℝ) (ht : 0 < t) {x y : ℝ} (hx : 1 ≤ x)
    (h : y - x * t ≥ 0) : 1 ≤ x + y * t := by
  nlinarith [mul_nonneg (sub_nonneg.mpr (by linarith : x * t ≤ y)) ht.le,
    mul_nonneg (mul_nonneg (by linarith : (0:ℝ) ≤ x) ht.le) ht.le]

theorem atanLoop_step (t : ℝ) (ht : 0 < t) (x y : ℝ) (hx : 1 ≤ x)
    (h : y - x * t ≥ 0) (h2 : 1 ≤ x + y * t) :
    atanLoop t ht x y hx
      = ((atanLoop t ht (x + y * t) (y - x * t) h2).1 + 1,
         (atanLoop t ht (x + y * t) (y - x * t) h2).2) := by
  rw [atanLoop, dif_pos h]

theorem atanLoop_x_ge_one (t : ℝ) (ht : 0 < t) :
    ∀ (x y : ℝ) (hx : 1 ≤ x), 1 ≤ (atanLoop t ht x y hx).2.1 := by
  intro x y hx
  induction x, y, hx using atanLoop.induct t ht with
  | case1 x y hx h ih =>
    rw [atanLoop_step t ht x y hx h (atanLoop_inv_step t ht hx h)]
    exact ih
  | case2 x y hx h => rw [atanLoop_done_eval t ht x y hx h]; exact hx

theorem atanLoop_y_nonneg (t : ℝ) (ht : 0 < t) :
    ∀ (x y : ℝ) (hx : 1 ≤ x), 0 ≤ y → 0 ≤ (atanLoop t ht x y hx).2.2 := by
  intro x y hx
  induction x, y, hx using atanLoop.induct t ht with
  | case1 x y hx h ih =>
    intro _
    rw [atanLoop_step t ht x y hx h (atanLoop_inv_step t ht hx h)]
    exact ih h
  | case2 x y hx h => intro hy; rw [atanLoop_done_eval t ht x y hx h]; exact hy

theorem atanLoop_exit (t : ℝ) (ht : 0 < t) :
    ∀ (x y : ℝ) (hx : 1 ≤ x),
      (atanLoop t ht x y hx).2.2 - (atanLoop t ht x y hx).2.1 * t < 0 := by
  intro x y hx
  induction x, y, hx using atanLoop.induct t ht with
  | case1 x y hx h ih =>
    rw [atanLoop_step t ht x y hx h (atanLoop_inv_step t ht hx h)]
    exact ih
  | case2 x y hx h => rw [atanLoop_done_eval t ht x y hx h]; linarith [not_le.mp h]

theorem arctan_vector_step (t : ℝ) (ht : 0 < t) (x y : ℝ) (hx : 0 < x)
    (h : y - x * t ≥ 0) :
    Real.arctan (y / x)
      = Real.arctan t + Real.arctan ((y - x * t) / (x + y * t)) := by
  have hyt : 0 ≤ y * t := by nlinarith [mul_nonneg (by nlinarith : (0:ℝ) ≤ y) ht.le]
  have hx2 : (0:ℝ) < x + y * t := by linarith
  have hab : t * ((y - x * t) / (x + y * t)) < 1 := by
    rw [← mul_div_assoc, div_lt_one hx2]
    nlinarith [mul_pos (mul_pos hx ht) ht]
  have hden : 1 - t * ((y - x * t) / (x + y * t)) ≠ 0 := (sub_pos.mpr hab).ne'
  have hxne : x ≠ 0 := hx.ne'
  have hx2ne : x + y * t ≠ 0 := hx2.ne'
  rw [Real.arctan_add hab]
  congr 1
  rw [div_eq_div_iff hxne hden]
  field_simp
  ring

theorem atanLoop_arctan (t : ℝ) (ht : 0 < t) :
    ∀ (x y : ℝ) (hx : 1 ≤ x), 0 ≤ y →
      Real.arctan (y / x)
        = ((atanLoop t ht x y hx).1 : ℝ) * Real.arctan t
          + Real.arctan ((atanLoop t ht x y hx).2.2 / (atanLoop t ht x y hx).2.1) := by
  intro x y hx
  induction x, y, hx using atanLoop.induct t ht with
  | case1 x y hx h ih =>
    intro hy
    rw [atanLoop_step t ht x y hx h (atanLoop_inv_step t ht hx h)]
    have hstep := arctan_vector_step t ht x y (by linarith) h
    rw [hstep, ih (by linarith)]
    push_cast
    ring
  | case2 x y hx h =>
    intro hy
    rw [atanLoop_done_eval t ht x y hx h]
    push_cast
    ring

/-- Digit extraction of `atan1` over the ratio table: the vectoring loop is
run for each ratio in turn, threading the state `(x, y)`. -/
noncomputable def atanExtractLoop :
    (ts : List ℝ) → (∀ t ∈ ts, 0 < t) → (x y : ℝ) → 1 ≤ x → List ℕ × ℝ × ℝ
  | [], _, x, y, _ => ([], x, y)
  | t :: ts, h, x, y, hx =>
    let r := atanLoop t (h t (List.mem_cons_self t ts)) x y hx
    let rest := atanExtractLoop ts (fun u hu => h u (List.mem_cons_of_mem t hu))
      r.2.1 r.2.2 (atanLoop_x_ge_one t (h t (List.mem_cons_self t ts)) x y hx)
    (r.1 :: rest.1, rest.2)

theorem trigTable_pos : ∀ t ∈ trigTable, 0 < t := by
  intro t ht
  simp only [trigTable, List.mem_cons, List.not_mem_nil, or_false] at ht
  rcases ht with h | h | h | h | h | h | h <;> rw [h] <;> norm_num

/-- The recombination loop of `atan1`: `for (j = K-1; j >= 0; j--) result
+= digits[j] * tans[j]`, the last table entry added first. -/
noncomputable def atanRecomb : List ℕ → List ℝ → ℝ → ℝ
  | d :: ds, l :: ls, r => atanRecomb ds ls r + d * l
  | _, _, r => r

noncomputable def atan1 (n : ℝ) : ℝ :=
  if n < 0 then
    -(atanRecomb (atanExtractLoop trigTable trigTable_pos 1 |n| le_rfl).1 tans
        ((atanExtractLoop trigTable trigTable_pos 1 |n| le_rfl).2.2
          / (atanExtractLoop trigTable trigTable_pos 1 |n| le_rfl).2.1))
  else
    atanRecomb (atanExtractLoop trigTable trigTable_pos 1 |n| le_rfl).1 tans
      ((atanExtractLoop trigTable trigTable_pos 1 |n| le_rfl).2.2
        / (atanExtractLoop trigTable trigTable_pos 1 |n| le_rfl).2.1)

/-! ## Arctangent series bounds (used for the range analysis of `atan1`) -/


noncomputable def arctanP (N : ℕ) (x : ℝ) : ℝ :=
  ∑ k in Finset.range (N + 1), (-1 : ℝ) ^ k * x ^ (2 * k + 1) / (2 * k + 1)

open intervalIntegral in
theorem arctan_eq_integral (x : ℝ) :
    Real.arctan x = ∫ u in (0:ℝ)..x, 1 / (1 + u ^ 2) := by
  have h := integral_one_div_one_add_sq (a := (0:ℝ)) (b := x)
  push_cast at h
  rw [h, Real.arctan_zero, sub_zero]

theorem integrand_decomp (N : ℕ) (u : ℝ) :
    1 / (1 + u ^ 2)
      = (∑ k in Finset.range (N + 1), (-1 : ℝ) ^ k * u ^ (2 * k))
        + (-1 : ℝ) ^ (N + 1) * u ^ (2 * N + 2) / (1 + u ^ 2) := by
  have hu : (1:ℝ) + u ^ 2 ≠ 0 := by positivity
  have hr : (-(u ^ 2) : ℝ) ≠ 1 := by nlinarith [sq_nonneg u]
  have hterm : ∀ k, (-(u ^ 2) : ℝ) ^ k = (-1 : ℝ) ^ k * u ^ (2 * k) := by
    intro k; rw [neg_pow, ← pow_mul]
  have key : (∑ k in Finset.range (N + 1), (-(u ^ 2) : ℝ) ^ k) * (1 + u ^ 2)
      = 1 - (-(u ^ 2)) ^ (N + 1) := by
    rw [geom_sum_eq hr (N + 1)]
    have hd : (-(u ^ 2) : ℝ) - 1 ≠ 0 := sub_ne_zero.mpr hr
    field_simp
    ring
  have hsum : (∑ k in Finset.range (N + 1), (-1 : ℝ) ^ k * u ^ (2 * k))
      = ∑ k in Finset.range (N + 1), (-(u ^ 2) : ℝ) ^ k :=
    Finset.sum_congr rfl (fun k _ => (hterm k).symm)
  have h2 : ((-1:ℝ)) ^ (N + 1) * u ^ (2 * N + 2) = (-(u ^ 2)) ^ (N + 1) := by
    rw [hterm (N + 1)]
    congr 2
  rw [hsum, h2]
  field_simp
  linarith [key]

theorem cont_inv_one_add_sq : Continuous fun u : ℝ => 1 / (1 + u ^ 2) :=
  continuous_const.div (by continuity) (fun u => by positivity)

open intervalIntegral in
theorem arctanP_integral (N : ℕ) (x : ℝ) :
    arctanP N x
      = ∫ u in (0:ℝ)..x, ∑ k in Finset.range (N + 1), (-1:ℝ) ^ k * u ^ (2 * k) := by
  rw [integral_finset_sum (fun k _ =>
    ((continuous_const.mul (continuous_pow _)).intervalIntegrable 0 x))]
  rw [arctanP]
  refine Finset.sum_congr rfl fun k _ => ?_
  rw [integral_const_mul, integral_pow]
  simp
  ring

open intervalIntegral in
theorem arctan_series_bound (N : ℕ) (x : ℝ) (hx : 0 ≤ x) :
    |Real.arctan x - arctanP N x| ≤ x ^ (2 * N + 3) / (2 * N + 3) := by
  have c2 : Continuous fun u : ℝ => ∑ k in Finset.range (N + 1), (-1:ℝ) ^ k * u ^ (2 * k) :=
    continuous_finset_sum _ (fun k _ => continuous_const.mul (continuous_pow _))
  have c3 : Continuous fun u : ℝ => (-1:ℝ) ^ (N + 1) * u ^ (2 * N + 2) / (1 + u ^ 2) :=
    (continuous_const.mul (continuous_pow _)).div (by continuity) (fun u => by positivity)
  have hdiff : Real.arctan x - arctanP N x
      = ∫ u in (0:ℝ)..x, (-1:ℝ) ^ (N + 1) * u ^ (2 * N + 2) / (1 + u ^ 2) := by
    rw [arctan_eq_integral, arctanP_integral,
      ← integral_sub (cont_inv_one_add_sq.intervalIntegrable 0 x)
        (c2.intervalIntegrable 0 x)]
    apply integral_congr
    intro u _
    have h := integrand_decomp N u
    simp only []
    linarith
  rw [hdiff]
  have habs := abs_integral_le_integral_abs (μ := MeasureTheory.volume)
    (f := fun u : ℝ => (-1:ℝ) ^ (N + 1) * u ^ (2 * N + 2) / (1 + u ^ 2)) hx
  refine le_trans habs ?_
  have hmono : (∫ u in (0:ℝ)..x, |(-1:ℝ) ^ (N + 1) * u ^ (2 * N + 2) / (1 + u ^ 2)|)
      ≤ ∫ u in (0:ℝ)..x, u ^ (2 * N + 2) := by
    refine integral_mono_on hx (c3.abs.intervalIntegrable 0 x)
      ((continuous_pow _).intervalIntegrable 0 x) ?_
    intro u _
    have heven : Even (2 * N + 2) := ⟨N + 1, by ring⟩
    have hnn : 0 ≤ u ^ (2 * N + 2) := heven.pow_nonneg u
    rw [abs_div, abs_mul, abs_pow, abs_pow, abs_neg, abs_one, one_pow, one_mul]
    rw [abs_of_nonneg (by positivity : (0:ℝ) ≤ 1 + u ^ 2)]
    have h1 : |u| ^ (2 * N + 2) = u ^ (2 * N + 2) := by
      rw [← abs_pow, abs_of_nonneg hnn]
    rw [h1]
    exact div_le_self hnn (by nlinarith [sq_nonneg u])
  refine le_trans hmono ?_
  rw [integral_pow]
  simp
  rw [show 2 * N + 2 + 1 = 2 * N + 3 from rfl]
  have hc : (2 * (N:ℝ) + 2 + 1) = 2 * (N:ℝ) + 3 := by ring
  rw [hc]

theorem arctan_ge_sub_cube (x : ℝ) (hx : 0 ≤ x) :
    x - x ^ 3 / 3 ≤ Real.arctan x := by
  have h := arctan_series_bound 0 x hx
  have hp : arctanP 0 x = x := by
    simp [arctanP, Finset.sum_range_one]
  rw [hp] at h
  have := abs_le.mp h
  have h3 : x ^ (2 * 0 + 3) / ((2 * (0:ℕ) : ℝ) + 3) = x ^ 3 / 3 := by norm_num
  rw [h3] at this
  linarith [this.1]

theorem arctan_le_self_of_nonneg (x : ℝ) (hx : 0 ≤ x) : Real.arctan x ≤ x := by
  rw [arctan_eq_integral]
  have h1 : (∫ u in (0:ℝ)..x, 1 / (1 + u ^ 2)) ≤ ∫ u in (0:ℝ)..x, 1 := by
    refine intervalIntegral.integral_mono_on hx
      (cont_inv_one_add_sq.intervalIntegrable 0 x)
      (continuous_const.intervalIntegrable 0 x) ?_
    intro u _
    rw [div_le_one (by positivity)]
    nlinarith [sq_nonneg u]
  simpa using h1

theorem atanExtractLoop_x_ge_one :
    ∀ (ts : List ℝ) (h : ∀ t ∈ ts, 0 < t) (x y : ℝ) (hx : 1 ≤ x),
      1 ≤ (atanExtractLoop ts h x y hx).2.1 := by
  intro ts
  induction ts with
  | nil => intro h x y hx; exact hx
  | cons t ts ih =>
    intro h x y hx
    simp only [atanExtractLoop]
    exact ih _ _ _ _

theorem atanExtractLoop_y_nonneg :
    ∀ (ts : List ℝ) (h : ∀ t ∈ ts, 0 < t) (x y : ℝ) (hx : 1 ≤ x), 0 ≤ y →
      0 ≤ (atanExtractLoop ts h x y hx).2.2 := by
  intro ts
  induction ts with
  | nil => intro h x y hx hy; exact hy
  | cons t ts ih =>
    intro h x y hx hy
    simp only [atanExtractLoop]
    exact ih _ _ _ _ (atanLoop_y_nonneg t (h t (List.mem_cons_self t ts)) x y hx hy)

theorem atanExtractLoop_last_exit :
    ∀ (ts : List ℝ) (h : ∀ t ∈ ts, 0 < t) (x y : ℝ) (hx : 1 ≤ x) (hne : ts ≠ []),
      (atanExtractLoop ts h x y hx).2.2
        < (atanExtractLoop ts h x y hx).2.1 * ts.getLast hne := by
  intro ts
  induction ts with
  | nil => intro h x y hx hne; exact absurd rfl hne
  | cons t ts ih =>
    intro h x y hx hne
    rcases ts with _ | ⟨t', ts'⟩
    · simp only [atanExtractLoop, List.getLast_singleton]
      have he := atanLoop_exit t (h t (List.mem_cons_self t [])) x y hx
      linarith
    · simp only [atanExtractLoop]
      have h2 := ih (fun u hu => h u (List.mem_cons_of_mem t hu))
        (atanLoop t (h t (List.mem_cons_self t (t' :: ts'))) x y hx).2.1
        (atanLoop t (h t (List.mem_cons_self t (t' :: ts'))) x y hx).2.2
        (atanLoop_x_ge_one t (h t (List.mem_cons_self t (t' :: ts'))) x y hx)
        (List.cons_ne_nil t' ts')
      rw [List.getLast_cons (List.cons_ne_nil t' ts')]
      exact h2

theorem atanExtractLoop_arctan :
    ∀ (ts : List ℝ) (h : ∀ t ∈ ts, 0 < t) (x y : ℝ) (hx : 1 ≤ x), 0 ≤ y →
      Real.arctan (y / x)
        = atanRecomb (atanExtractLoop ts h x y hx).1 (ts.map Real.arctan)
            (Real.arctan ((atanExtractLoop ts h x y hx).2.2
              / (atanExtractLoop ts h x y hx).2.1)) := by
  intro ts
  induction ts with
  | nil => intro h x y hx hy; rfl
  | cons t ts ih =>
    intro h x y hx hy
    have ht : 0 < t := h t (List.mem_cons_self t ts)
    simp only [atanExtractLoop, List.map_cons]
    have h1 := atanLoop_arctan t ht x y hx hy
    have h2 := ih (fun u hu => h u (List.mem_cons_of_mem t hu))
      (atanLoop t ht x y hx).2.1 (atanLoop t ht x y hx).2.2
      (atanLoop_x_ge_one t ht x y hx)
      (atanLoop_y_nonneg t ht x y hx hy)
    rw [h1, h2]
    simp only [atanRecomb]
    ring

theorem atanRecomb_seed :
    ∀ (ds : List ℕ) (ls : List ℝ) (a b : ℝ),
      atanRecomb ds ls a - atanRecomb ds ls b = a - b := by
  intro ds
  induction ds with
  | nil => intro ls a b; rfl
  | cons d ds ih =>
    intro ls a b
    rcases ls with _ | ⟨l, ls⟩
    · rfl
    · simp only [atanRecomb]
      have := ih ls a b
      linarith

theorem atan1_repr (n : ℝ) (hn : 0 ≤ n) :
    atan1 n - Real.arctan n
      = (atanExtractLoop trigTable trigTable_pos 1 |n| le_rfl).2.2
          / (atanExtractLoop trigTable trigTable_pos 1 |n| le_rfl).2.1
        - Real.arctan ((atanExtractLoop trigTable trigTable_pos 1 |n| le_rfl).2.2
          / (atanExtractLoop trigTable trigTable_pos 1 |n| le_rfl).2.1) := by
  have habs : |n| = n := abs_of_nonneg hn
  have htel := atanExtractLoop_arctan trigTable trigTable_pos 1 |n| le_rfl (abs_nonneg n)
  rw [div_one] at htel
  have hmap : trigTable.map Real.arctan = tans := by simp [trigTable, tans]
  rw [hmap] at htel
  rw [atan1, if_neg (not_lt.mpr hn)]
  have hseed := atanRecomb_seed (atanExtractLoop trigTable trigTable_pos 1 |n| le_rfl).1
    tans
    ((atanExtractLoop trigTable trigTable_pos 1 |n| le_rfl).2.2
      / (atanExtractLoop trigTable trigTable_pos 1 |n| le_rfl).2.1)
    (Real.arctan ((atanExtractLoop trigTable trigTable_pos 1 |n| le_rfl).2.2
      / (atanExtractLoop trigTable trigTable_pos 1 |n| le_rfl).2.1))
  have hgoal : Real.arctan n = Real.arctan |n| := by rw [habs]
  rw [hgoal]
  linarith

theorem atan1_nonneg_bound (n : ℝ) (h0 : 0 ≤ n) (h18 : n ≤ 1e18) :
    0 ≤ atan1 n ∧ atan1 n < Real.pi / 2 := by
  have hx1 : 1 ≤ (atanExtractLoop trigTable trigTable_pos 1 |n| le_rfl).2.1 :=
    atanExtractLoop_x_ge_one trigTable trigTable_pos 1 |n| le_rfl
  have hy0 : 0 ≤ (atanExtractLoop trigTable trigTable_pos 1 |n| le_rfl).2.2 :=
    atanExtractLoop_y_nonneg trigTable trigTable_pos 1 |n| le_rfl (abs_nonneg n)
  have hne : trigTable ≠ [] := by simp [trigTable]
  have hexit := atanExtractLoop_last_exit trigTable trigTable_pos 1 |n| le_rfl hne
  have hlast : trigTable.getLast hne = 0.000001 := rfl
  rw [hlast] at hexit
  set R : ℝ := (atanExtractLoop trigTable trigTable_pos 1 |n| le_rfl).2.2
    / (atanExtractLoop trigTable trigTable_pos 1 |n| le_rfl).2.1 with hRdef
  have hxpos : (0:ℝ) < (atanExtractLoop trigTable trigTable_pos 1 |n| le_rfl).2.1 := by
    linarith
  have hRnn : 0 ≤ R := div_nonneg hy0 hxpos.le
  have hRlt : R < 0.000001 := by
    rw [hRdef, div_lt_iff₀ hxpos]
    linarith [hexit]
  have hd1 : R - Real.arctan R ≤ R ^ 3 / 3 := by
    have := arctan_ge_sub_cube R hRnn
    linarith
  have hd0 : 0 ≤ R - Real.arctan R := by
    have := arctan_le_self_of_nonneg R hRnn
    linarith
  have hR3 : R ^ 3 < 1e-18 := by
    have := pow_lt_pow_left hRlt hRnn (n := 3) (by norm_num)
    calc R ^ 3 < (0.000001 : ℝ) ^ 3 := this
      _ = 1e-18 := by norm_num
  have hrepr := atan1_repr n h0
  rw [← hRdef] at hrepr
  have harcmono : Real.arctan n ≤ Real.arctan 1e18 :=
    Real.arctan_strictMono.monotone h18
  have harc0 : 0 ≤ Real.arctan n := by
    have := Real.arctan_strictMono.monotone h0
    rwa [Real.arctan_zero] at this
  have hinv : Real.arctan 1e18 = Real.pi / 2 - Real.arctan 1e-18 := by
    rw [show (1e18:ℝ) = (1e-18)⁻¹ by norm_num]
    exact Real.arctan_inv_of_pos (by norm_num)
  have hlow : (1e-18:ℝ) - (1e-18) ^ 3 / 3 ≤ Real.arctan 1e-18 :=
    arctan_ge_sub_cube 1e-18 (by norm_num)
  constructor
  · linarith
  · have hnum : (1e-18:ℝ) ^ 3 / 3 < 1e-18 - 1e-18 / 3 := by norm_num
    linarith

theorem atan1_of_neg (n : ℝ) (h : n < 0) : atan1 n = -atan1 (-n) := by
  rw [atan1, if_pos h, atan1, if_neg (not_lt.mpr (by linarith : (0:ℝ) ≤ -n)), abs_neg]

/-- C9 (amended): for every input with `|n| ≤ 1e18`, `atan1` returns a
value strictly inside `(-π/2, π/2)`, negating for negative inputs; it has
no sentinel path (it is a total function of the input).  For astronomically
large inputs the strict bound fails (see the counterexample). -/
theorem C9_atan1_range (n : ℝ) (h : |n| ≤ 1e18) : |atan1 n| < Real.pi / 2 := by
  rcases le_or_lt 0 n with h0 | h0
  · rw [abs_of_nonneg h0] at h
    obtain ⟨hl, hr⟩ := atan1_nonneg_bound n h0 h
    rw [abs_of_nonneg hl]
    exact hr
  · rw [abs_of_neg h0] at h
    rw [atan1_of_neg n h0, abs_neg]
    obtain ⟨hl, hr⟩ := atan1_nonneg_bound (-n) (by linarith) h
    rw [abs_of_nonneg hl]
    exact hr

theorem C9_atan1_range_witness : |(1:ℝ)| ≤ 1e18 ∧ |atan1 1| < Real.pi / 2 :=
  ⟨by norm_num, C9_atan1_range 1 (by norm_num)⟩

theorem atanExtractLoop_state_congr (ts : List ℝ) (h : ∀ t ∈ ts, 0 < t)
    (x y x2 y2 : ℝ) (hx : 1 ≤ x) (hx2 : 1 ≤ x2) (hxe : x = x2) (hye : y = y2) :
    atanExtractLoop ts h x y hx = atanExtractLoop ts h x2 y2 hx2 := by
  subst hxe; subst hye; rfl

theorem atanExtractLoop_cons_eval (t : ℝ) (ts : List ℝ) (h : ∀ u ∈ t :: ts, 0 < u)
    (x y : ℝ) (hx : 1 ≤ x) (d : ℕ) (x2 y2 : ℝ)
    (hloop : atanLoop t (h t (List.mem_cons_self t ts)) x y hx = (d, x2, y2))
    (hx2 : 1 ≤ x2) (res : List ℕ × ℝ × ℝ)
    (hrest : atanExtractLoop ts (fun u hu => h u (List.mem_cons_of_mem t hu)) x2 y2 hx2
      = res) :
    atanExtractLoop (t :: ts) h x y hx = (d :: res.1, res.2) := by
  have e0 : (atanLoop t (h t (List.mem_cons_self t ts)) x y hx).1 = d := by rw [hloop]
  have e1 : (atanLoop t (h t (List.mem_cons_self t ts)) x y hx).2.1 = x2 := by rw [hloop]
  have e2 : (atanLoop t (h t (List.mem_cons_self t ts)) x y hx).2.2 = y2 := by rw [hloop]
  simp only [atanExtractLoop]
  rw [atanExtractLoop_state_congr ts (fun u hu => h u (List.mem_cons_of_mem t hu))
    _ _ x2 y2 (atanLoop_x_ge_one t (h t (List.mem_cons_self t ts)) x y hx) hx2 e1 e2]
  rw [hrest, e0]

theorem atanExtract_1e22 :
    atanExtractLoop trigTable trigTable_pos 1 ((10 : ℝ) ^ 22) le_rfl
      = ([1, 7, 8, 7, 7, 2, 0], ((146492385259254136110548882679103910177596814562079314268773388830319141923947602244179263526004530659031 : ℝ) / 10 ^ 82), ((38791426522360734167702973537172372636202362314337747005718667221528874338830953878992105973384771 : ℝ) / 10 ^ 82)) := by
  show atanExtractLoop [1, 0.1, 0.01, 0.001, 0.0001, 0.00001, 0.000001] trigTable_pos
    1 ((10 : ℝ) ^ 22) le_rfl = _
  have L0 : ∀ (ht : 0 < (1:ℝ)) (hx : 1 ≤ (1 : ℝ)),
      atanLoop 1 ht (1 : ℝ) ((10 : ℝ) ^ 22) hx = (1, (10000000000000000000001 : ℝ), (9999999999999999999999 : ℝ)) := by
    intro ht hx
    refine atanLoop_step_eval 1 ht (1 : ℝ) ((10 : ℝ) ^ 22) (10000000000000000000001 : ℝ) (9999999999999999999999 : ℝ) _
      (by norm_num) (by norm_num) (by norm_num) 0 (10000000000000000000001 : ℝ) (9999999999999999999999 : ℝ) (fun hnext => ?_)
    exact atanLoop_done_eval 1 ht (10000000000000000000001 : ℝ) (9999999999999999999999 : ℝ) _ (by norm_num)
  have L1 : ∀ (ht : 0 < (0.1:ℝ)) (hx : 1 ≤ (10000000000000000000001 : ℝ)),
      atanLoop 0.1 ht (10000000000000000000001 : ℝ) (9999999999999999999999 : ℝ) hx = (7, ((145870290000000000000001282831 : ℝ) / 10 ^ 7), ((12828309999999999999985412971 : ℝ) / 10 ^ 7)) := by
    intro ht hx
    refine atanLoop_step_eval 0.1 ht (10000000000000000000001 : ℝ) (9999999999999999999999 : ℝ) ((110000000000000000000009 : ℝ) / 10 ^ 1) ((89999999999999999999989 : ℝ) / 10 ^ 1) _
      (by norm_num) (by norm_num) (by norm_num) 6 ((145870290000000000000001282831 : ℝ) / 10 ^ 7) ((12828309999999999999985412971 : ℝ) / 10 ^ 7) (fun hnext => ?_)
    refine atanLoop_step_eval 0.1 ht ((110000000000000000000009 : ℝ) / 10 ^ 1) ((89999999999999999999989 : ℝ) / 10 ^ 1) ((1190000000000000000000079 : ℝ) / 10 ^ 2) ((789999999999999999999881 : ℝ) / 10 ^ 2) _
      (by norm_num) (by norm_num) (by norm_num) 5 ((145870290000000000000001282831 : ℝ) / 10 ^ 7) ((12828309999999999999985412971 : ℝ) / 10 ^ 7) (fun hnext => ?_)
    refine atanLoop_step_eval 0.1 ht ((1190000000000000000000079 : ℝ) / 10 ^ 2) ((789999999999999999999881 : ℝ) / 10 ^ 2) ((12690000000000000000000671 : ℝ) / 10 ^ 3) ((6709999999999999999998731 : ℝ) / 10 ^ 3) _
      (by norm_num) (by norm_num) (by norm_num) 4 ((145870290000000000000001282831 : ℝ) / 10 ^ 7) ((12828309999999999999985412971 : ℝ) / 10 ^ 7) (fun hnext => ?_)
    refine atanLoop_step_eval 0.1 ht ((12690000000000000000000671 : ℝ) / 10 ^ 3) ((6709999999999999999998731 : ℝ) / 10 ^ 3) ((133610000000000000000005441 : ℝ) / 10 ^ 4) ((54409999999999999999986639 : ℝ) / 10 ^ 4) _
      (by norm_num) (by norm_num) (by norm_num) 3 ((145870290000000000000001282831 : ℝ) / 10 ^ 7) ((12828309999999999999985412971 : ℝ) / 10 ^ 7) (fun hnext => ?_)
    refine atanLoop_step_eval 0.1 ht ((133610000000000000000005441 : ℝ) / 10 ^ 4) ((54409999999999999999986639 : ℝ) / 10 ^ 4) ((1390510000000000000000041049 : ℝ) / 10 ^ 5) ((410489999999999999999860949 : ℝ) / 10 ^ 5) _
      (by norm_num) (by norm_num) (by norm_num) 2 ((145870290000000000000001282831 : ℝ) / 10 ^ 7) ((12828309999999999999985412971 : ℝ) / 10 ^ 7) (fun hnext => ?_)
    refine atanLoop_step_eval 0.1 ht ((1390510000000000000000041049 : ℝ) / 10 ^ 5) ((410489999999999999999860949 : ℝ) / 10 ^ 5) ((14315590000000000000000271439 : ℝ) / 10 ^ 6) ((2714389999999999999998568441 : ℝ) / 10 ^ 6) _
      (by norm_num) (by norm_num) (by norm_num) 1 ((145870290000000000000001282831 : ℝ) / 10 ^ 7) ((12828309999999999999985412971 : ℝ) / 10 ^ 7) (fun hnext => ?_)
    refine atanLoop_step_eval 0.1 ht ((14315590000000000000000271439 : ℝ) / 10 ^ 6) ((2714389999999999999998568441 : ℝ) / 10 ^ 6) ((145870290000000000000001282831 : ℝ) / 10 ^ 7) ((12828309999999999999985412971 : ℝ) / 10 ^ 7) _
      (by norm_num) (by norm_num) (by norm_num) 0 ((145870290000000000000001282831 : ℝ) / 10 ^ 7) ((12828309999999999999985412971 : ℝ) / 10 ^ 7) (fun hnext => ?_)
    exact atanLoop_done_eval 0.1 ht ((145870290000000000000001282831 : ℝ) / 10 ^ 7) ((12828309999999999999985412971 : ℝ) / 10 ^ 7) _ (by norm_num)
  have L2 : ∀ (ht : 0 < (0.01:ℝ)) (hx : 1 ≤ ((145870290000000000000001282831 : ℝ) / 10 ^ 7)),
      atanLoop 0.01 ht ((145870290000000000000001282831 : ℝ) / 10 ^ 7) ((12828309999999999999985412971 : ℝ) / 10 ^ 7) hx = (8, ((1464875017795961562022291130944430835854226031 : ℝ) / 10 ^ 23), ((11309444308358542260163512498220403843797771 : ℝ) / 10 ^ 23)) := by
    intro ht hx
    refine atanLoop_step_eval 0.01 ht ((145870290000000000000001282831 : ℝ) / 10 ^ 7) ((12828309999999999999985412971 : ℝ) / 10 ^ 7) ((14599857310000000000000113696071 : ℝ) / 10 ^ 9) ((1136960709999999999998540014269 : ℝ) / 10 ^ 9) _
      (by norm_num) (by norm_num) (by norm_num) 7 ((1464875017795961562022291130944430835854226031 : ℝ) / 10 ^ 23) ((11309444308358542260163512498220403843797771 : ℝ) / 10 ^ 23) (fun hnext => ?_)
    refine atanLoop_step_eval 0.01 ht ((14599857310000000000000113696071 : ℝ) / 10 ^ 9) ((1136960709999999999998540014269 : ℝ) / 10 ^ 9) ((1461122691710000000000009909621369 : ℝ) / 10 ^ 11) ((99096213689999999999853887730829 : ℝ) / 10 ^ 11) _
      (by norm_num) (by norm_num) (by norm_num) 6 ((1464875017795961562022291130944430835854226031 : ℝ) / 10 ^ 23) ((11309444308358542260163512498220403843797771 : ℝ) / 10 ^ 23) (fun hnext => ?_)
    refine atanLoop_step_eval 0.01 ht ((1461122691710000000000009909621369 : ℝ) / 10 ^ 11) ((99096213689999999999853887730829 : ℝ) / 10 ^ 11) ((146211365384690000000000844849867729 : ℝ) / 10 ^ 13) ((8448498677289999999985378863461531 : ℝ) / 10 ^ 13) _
      (by norm_num) (by norm_num) (by norm_num) 5 ((1464875017795961562022291130944430835854226031 : ℝ) / 10 ^ 23) ((11309444308358542260163512498220403843797771 : ℝ) / 10 ^ 23) (fun hnext => ?_)
    refine atanLoop_step_eval 0.01 ht ((146211365384690000000000844849867729 : ℝ) / 10 ^ 13) ((8448498677289999999985378863461531 : ℝ) / 10 ^ 13) ((14629585037146290000000069863850234431 : ℝ) / 10 ^ 15) ((698638502344309999998537041496285371 : ℝ) / 10 ^ 15) _
      (by norm_num) (by norm_num) (by norm_num) 4 ((1464875017795961562022291130944430835854226031 : ℝ) / 10 ^ 23) ((11309444308358542260163512498220403843797771 : ℝ) / 10 ^ 23) (fun hnext => ?_)
    refine atanLoop_step_eval 0.01 ht ((14629585037146290000000069863850234431 : ℝ) / 10 ^ 15) ((698638502344309999998537041496285371 : ℝ) / 10 ^ 15) ((1463657142216973310000005523426519728471 : ℝ) / 10 ^ 17) ((55234265197284709999853634285778302669 : ℝ) / 10 ^ 17) _
      (by norm_num) (by norm_num) (by norm_num) 3 ((1464875017795961562022291130944430835854226031 : ℝ) / 10 ^ 23) ((11309444308358542260163512498220403843797771 : ℝ) / 10 ^ 23) (fun hnext => ?_)
    refine atanLoop_step_eval 0.01 ht ((1463657142216973310000005523426519728471 : ℝ) / 10 ^ 17) ((55234265197284709999853634285778302669 : ℝ) / 10 ^ 17) ((146420948486894615710000405976937751149769 : ℝ) / 10 ^ 19) ((4059769377511497689985357905151310538429 : ℝ) / 10 ^ 19) _
      (by norm_num) (by norm_num) (by norm_num) 2 ((1464875017795961562022291130944430835854226031 : ℝ) / 10 ^ 23) ((11309444308358542260163512498220403843797771 : ℝ) / 10 ^ 23) (fun hnext => ?_)
    refine atanLoop_step_eval 0.01 ht ((146420948486894615710000405976937751149769 : ℝ) / 10 ^ 19) ((4059769377511497689985357905151310538429 : ℝ) / 10 ^ 19) ((14646154618066973068690025955598926425515329 : ℝ) / 10 ^ 21) ((259555989264255153288535384538193302693131 : ℝ) / 10 ^ 21) _
      (by norm_num) (by norm_num) (by norm_num) 1 ((1464875017795961562022291130944430835854226031 : ℝ) / 10 ^ 23) ((11309444308358542260163512498220403843797771 : ℝ) / 10 ^ 23) (fun hnext => ?_)
    refine atanLoop_step_eval 0.01 ht ((14646154618066973068690025955598926425515329 : ℝ) / 10 ^ 21) ((259555989264255153288535384538193302693131 : ℝ) / 10 ^ 21) ((1464875017795961562022291130944430835854226031 : ℝ) / 10 ^ 23) ((11309444308358542260163512498220403843797771 : ℝ) / 10 ^ 23) _
      (by norm_num) (by norm_num) (by norm_num) 0 ((1464875017795961562022291130944430835854226031 : ℝ) / 10 ^ 23) ((11309444308358542260163512498220403843797771 : ℝ) / 10 ^ 23) (fun hnext => ?_)
    exact atanLoop_done_eval 0.01 ht ((1464875017795961562022291130944430835854226031 : ℝ) / 10 ^ 23) ((11309444308358542260163512498220403843797771 : ℝ) / 10 ^ 23) _ (by norm_num)
  have L3 : ∀ (ht : 0 < (0.001:ℝ)) (hx : 1 ≤ ((1464875017795961562022291130944430835854226031 : ℝ) / 10 ^ 23)),
      atanLoop 0.001 ht ((1464875017795961562022291130944430835854226031 : ℝ) / 10 ^ 23) ((11309444308358542260163512498220403843797771 : ℝ) / 10 ^ 23) hx = (7, ((1464923421186186658699813524496573968514385003877291574454764985229 : ℝ) / 10 ^ 44), ((1055132956447026752992280573625928983982308658101672167618829031 : ℝ) / 10 ^ 44)) := by
    intro ht hx
    refine atanLoop_step_eval 0.001 ht ((1464875017795961562022291130944430835854226031 : ℝ) / 10 ^ 23) ((11309444308358542260163512498220403843797771 : ℝ) / 10 ^ 23) ((1464886327240269920564551294456929056258069828771 : ℝ) / 10 ^ 26) ((9844569290562580698141221367275973007943544969 : ℝ) / 10 ^ 26) _
      (by norm_num) (by norm_num) (by norm_num) 6 ((1464923421186186658699813524496573968514385003877291574454764985229 : ℝ) / 10 ^ 44) ((1055132956447026752992280573625928983982308658101672167618829031 : ℝ) / 10 ^ 44) (fun hnext => ?_)
    refine atanLoop_step_eval 0.001 ht ((1464886327240269920564551294456929056258069828771 : ℝ) / 10 ^ 26) ((9844569290562580698141221367275973007943544969 : ℝ) / 10 ^ 26) ((1464896171809560483145249435678296332231077772315969 : ℝ) / 10 ^ 29) ((8379682963322310777576670072819043951685475140229 : ℝ) / 10 ^ 29) _
      (by norm_num) (by norm_num) (by norm_num) 5 ((1464923421186186658699813524496573968514385003877291574454764985229 : ℝ) / 10 ^ 44) ((1055132956447026752992280573625928983982308658101672167618829031 : ℝ) / 10 ^ 44) (fun hnext => ?_)
    refine atanLoop_step_eval 0.001 ht ((1464896171809560483145249435678296332231077772315969 : ℝ) / 10 ^ 29) ((8379682963322310777576670072819043951685475140229 : ℝ) / 10 ^ 29) ((1464904551492523805456027012348369151275029457791109229 : ℝ) / 10 ^ 32) ((6914786791512750294431420637140747619454397367913031 : ℝ) / 10 ^ 32) _
      (by norm_num) (by norm_num) (by norm_num) 4 ((1464923421186186658699813524496573968514385003877291574454764985229 : ℝ) / 10 ^ 44) ((1055132956447026752992280573625928983982308658101672167618829031 : ℝ) / 10 ^ 44) (fun hnext => ?_)
    refine atanLoop_step_eval 0.001 ht ((1464904551492523805456027012348369151275029457791109229 : ℝ) / 10 ^ 32) ((6914786791512750294431420637140747619454397367913031 : ℝ) / 10 ^ 32) ((1464911466279315318206321443769006292022648912188477142031 : ℝ) / 10 ^ 35) ((5449882240020226488975393624792378468179367910121921771 : ℝ) / 10 ^ 35) _
      (by norm_num) (by norm_num) (by norm_num) 3 ((1464923421186186658699813524496573968514385003877291574454764985229 : ℝ) / 10 ^ 44) ((1055132956447026752992280573625928983982308658101672167618829031 : ℝ) / 10 ^ 44) (fun hnext => ?_)
    refine atanLoop_step_eval 0.001 ht ((1464911466279315318206321443769006292022648912188477142031 : ℝ) / 10 ^ 35) ((5449882240020226488975393624792378468179367910121921771 : ℝ) / 10 ^ 35) ((1464916916161555338432810419162631084401117091556387263952771 : ℝ) / 10 ^ 38) ((3984970773740911170769072181023372176156718997933444628969 : ℝ) / 10 ^ 38) _
      (by norm_num) (by norm_num) (by norm_num) 2 ((1464923421186186658699813524496573968514385003877291574454764985229 : ℝ) / 10 ^ 44) ((1055132956447026752992280573625928983982308658101672167618829031 : ℝ) / 10 ^ 44) (fun hnext => ?_)
    refine atanLoop_step_eval 0.001 ht ((1464916916161555338432810419162631084401117091556387263952771 : ℝ) / 10 ^ 38) ((3984970773740911170769072181023372176156718997933444628969 : ℝ) / 10 ^ 38) ((1464920901132329079343981188234812107773293248275385197397399969 : ℝ) / 10 ^ 41) ((2520053857579355832336261761860741091755601906377057365016229 : ℝ) / 10 ^ 41) _
      (by norm_num) (by norm_num) (by norm_num) 1 ((1464923421186186658699813524496573968514385003877291574454764985229 : ℝ) / 10 ^ 44) ((1055132956447026752992280573625928983982308658101672167618829031 : ℝ) / 10 ^ 44) (fun hnext => ?_)
    refine atanLoop_step_eval 0.001 ht ((1464920901132329079343981188234812107773293248275385197397399969 : ℝ) / 10 ^ 41) ((2520053857579355832336261761860741091755601906377057365016229 : ℝ) / 10 ^ 41) ((1464923421186186658699813524496573968514385003877291574454764985229 : ℝ) / 10 ^ 44) ((1055132956447026752992280573625928983982308658101672167618829031 : ℝ) / 10 ^ 44) _
      (by norm_num) (by norm_num) (by norm_num) 0 ((1464923421186186658699813524496573968514385003877291574454764985229 : ℝ) / 10 ^ 44) ((1055132956447026752992280573625928983982308658101672167618829031 : ℝ) / 10 ^ 44) (fun hnext => ?_)
    exact atanLoop_done_eval 0.001 ht ((1464923421186186658699813524496573968514385003877291574454764985229 : ℝ) / 10 ^ 44) ((1055132956447026752992280573625928983982308658101672167618829031 : ℝ) / 10 ^ 44) _ (by norm_num)
  have L4 : ∀ (ht : 0 < (0.0001:ℝ)) (hx : 1 ≤ ((1464923421186186658699813524496573968514385003877291574454764985229 : ℝ) / 10 ^ 44)),
      atanLoop 0.0001 ht ((1464923421186186658699813524496573968514385003877291574454764985229 : ℝ) / 10 ^ 44) ((1055132956447026752992280573625928983982308658101672167618829031 : ℝ) / 10 ^ 44) hx = (7, ((14649238521453059200980521213058861409272720115174425919500257861280947138197319050248515140969 : ℝ) / 10 ^ 72), ((296863913110983648747479086489642374098038875944726180685049642016276794399457155832815229 : ℝ) / 10 ^ 72)) := by
    intro ht hx
    refine atanLoop_step_eval 0.0001 ht ((1464923421186186658699813524496573968514385003877291574454764985229 : ℝ) / 10 ^ 44) ((1055132956447026752992280573625928983982308658101672167618829031 : ℝ) / 10 ^ 44) ((14649235266994823034024888237246313311072834021081573846219817471119031 : ℝ) / 10 ^ 48) ((9086406143284080871222992211762715871308701577139430101733525324771 : ℝ) / 10 ^ 48) _
      (by norm_num) (by norm_num) (by norm_num) 6 ((14649238521453059200980521213058861409272720115174425919500257861280947138197319050248515140969 : ℝ) / 10 ^ 72) ((296863913110983648747479086489642374098038875944726180685049642016276794399457155832815229 : ℝ) / 10 ^ 72) (fun hnext => ?_)
    refine atanLoop_step_eval 0.0001 ht ((14649235266994823034024888237246313311072834021081573846219817471119031 : ℝ) / 10 ^ 48) ((9086406143284080871222992211762715871308701577139430101733525324771 : ℝ) / 10 ^ 48) ((146492361756354373624329753595455344873444211519517315601628276444715634771 : ℝ) / 10 ^ 52) ((76214826165845985678205033880380845402014181750312727171115435776590969 : ℝ) / 10 ^ 52) _
      (by norm_num) (by norm_num) (by norm_num) 5 ((14649238521453059200980521213058861409272720115174425919500257861280947138197319050248515140969 : ℝ) / 10 ^ 72) ((296863913110983648747479086489642374098038875944726180685049642016276794399457155832815229 : ℝ) / 10 ^ 72) (fun hnext => ?_)
    refine atanLoop_step_eval 0.0001 ht ((146492361756354373624329753595455344873444211519517315601628276444715634771 : ℝ) / 10 ^ 52) ((76214826165845985678205033880380845402014181750312727171115435776590969 : ℝ) / 10 ^ 52) ((1464923693778369902089283214159587329115287517209354906329009935562592124300969 : ℝ) / 10 ^ 56) ((615655899902105483157720585208353109146697605983609956109526081321194055229 : ℝ) / 10 ^ 56) _
      (by norm_num) (by norm_num) (by norm_num) 4 ((14649238521453059200980521213058861409272720115174425919500257861280947138197319050248515140969 : ℝ) / 10 ^ 72) ((296863913110983648747479086489642374098038875944726180685049642016276794399457155832815229 : ℝ) / 10 ^ 72) (fun hnext => ?_)
    refine atanLoop_step_eval 0.0001 ht ((1464923693778369902089283214159587329115287517209354906329009935562592124300969 : ℝ) / 10 ^ 56) ((615655899902105483157720585208353109146697605983609956109526081321194055229 : ℝ) / 10 ^ 56) ((14649237553439598922998315299316458499505984318791155046900055465152002564203745229 : ℝ) / 10 ^ 60) ((4691635305242684929487922637923943762351688542626744654766250877649348427989031 : ℝ) / 10 ^ 60) _
      (by norm_num) (by norm_num) (by norm_num) 3 ((14649238521453059200980521213058861409272720115174425919500257861280947138197319050248515140969 : ℝ) / 10 ^ 72) ((296863913110983648747479086489642374098038875944726180685049642016276794399457155832815229 : ℝ) / 10 ^ 72) (fun hnext => ?_)
    refine atanLoop_step_eval 0.0001 ht ((14649237553439598922998315299316458499505984318791155046900055465152002564203745229 : ℝ) / 10 ^ 60) ((4691635305242684929487922637923943762351688542626744654766250877649348427989031 : ℝ) / 10 ^ 60) ((146492380226031294472668082481087222919003605539600093095745209417770903291385880279031 : ℝ) / 10 ^ 64) ((32267115498987250371880911079922979124010901107476291500762453311341481715686564771 : ℝ) / 10 ^ 64) _
      (by norm_num) (by norm_num) (by norm_num) 2 ((14649238521453059200980521213058861409272720115174425919500257861280947138197319050248515140969 : ℝ) / 10 ^ 72) ((296863913110983648747479086489642374098038875944726180685049642016276794399457155832815229 : ℝ) / 10 ^ 72) (fun hnext => ?_)
    refine atanLoop_step_eval 0.0001 ht ((146492380226031294472668082481087222919003605539600093095745209417770903291385880279031 : ℝ) / 10 ^ 64) ((32267115498987250371880911079922979124010901107476291500762453311341481715686564771 : ℝ) / 10 ^ 64) ((1464923834527428443713931196691783309113015179406902038433743594940162344255340518476874771 : ℝ) / 10 ^ 68) ((176178774763841209246141028318142568321105405535162821911879323695643913865479767430969 : ℝ) / 10 ^ 68) _
      (by norm_num) (by norm_num) (by norm_num) 1 ((14649238521453059200980521213058861409272720115174425919500257861280947138197319050248515140969 : ℝ) / 10 ^ 72) ((296863913110983648747479086489642374098038875944726180685049642016276794399457155832815229 : ℝ) / 10 ^ 72) (fun hnext => ?_)
    refine atanLoop_step_eval 0.0001 ht ((1464923834527428443713931196691783309113015179406902038433743594940162344255340518476874771 : ℝ) / 10 ^ 68) ((176178774763841209246141028318142568321105405535162821911879323695643913865479767430969 : ℝ) / 10 ^ 68) ((14649238521453059200980521213058861409272720115174425919500257861280947138197319050248515140969 : ℝ) / 10 ^ 72) ((296863913110983648747479086489642374098038875944726180685049642016276794399457155832815229 : ℝ) / 10 ^ 72) _
      (by norm_num) (by norm_num) (by norm_num) 0 ((14649238521453059200980521213058861409272720115174425919500257861280947138197319050248515140969 : ℝ) / 10 ^ 72) ((296863913110983648747479086489642374098038875944726180685049642016276794399457155832815229 : ℝ) / 10 ^ 72) (fun hnext => ?_)
    exact atanLoop_done_eval 0.0001 ht ((14649238521453059200980521213058861409272720115174425919500257861280947138197319050248515140969 : ℝ) / 10 ^ 72) ((296863913110983648747479086489642374098038875944726180685049642016276794399457155832815229 : ℝ) / 10 ^ 72) _ (by norm_num)
  have L5 : ∀ (ht : 0 < (0.00001:ℝ)) (hx : 1 ≤ ((14649238521453059200980521213058861409272720115174425919500257861280947138197319050248515140969 : ℝ) / 10 ^ 72)),
      atanLoop 0.00001 ht ((14649238521453059200980521213058861409272720115174425919500257861280947138197319050248515140969 : ℝ) / 10 ^ 72) ((296863913110983648747479086489642374098038875944726180685049642016276794399457155832815229 : ℝ) / 10 ^ 72) hx = (2, ((146492385259254136110548882679103910177596814562079314268773388830319141923947602244179263526004530659031 : ℝ) / 10 ^ 82), ((38791426522360734167702973537172372636202362314337747005718667221528874338830953878992105973384771 : ℝ) / 10 ^ 82)) := by
    intro ht hx
    refine atanLoop_step_eval 0.00001 ht ((14649238521453059200980521213058861409272720115174425919500257861280947138197319050248515140969 : ℝ) / 10 ^ 72) ((296863913110983648747479086489642374098038875944726180685049642016276794399457155832815229 : ℝ) / 10 ^ 72) ((1464923852442169833209035770053365227416914385615481467894751966813144355836008699424308669929715229 : ℝ) / 10 ^ 77) ((15037152789645305673767387435905376000531167479298192149004706340346732301748396533033007759031 : ℝ) / 10 ^ 77) _
      (by norm_num) (by norm_num) (by norm_num) 1 ((146492385259254136110548882679103910177596814562079314268773388830319141923947602244179263526004530659031 : ℝ) / 10 ^ 82) ((38791426522360734167702973537172372636202362314337747005718667221528874338830953878992105973384771 : ℝ) / 10 ^ 82) (fun hnext => ?_)
    refine atanLoop_step_eval 0.00001 ht ((1464923852442169833209035770053365227416914385615481467894751966813144355836008699424308669929715229 : ℝ) / 10 ^ 77) ((15037152789645305673767387435905376000531167479298192149004706340346732301748396533033007759031 : ℝ) / 10 ^ 77) ((146492385259254136110548882679103910177596814562079314268773388830319141923947602244179263526004530659031 : ℝ) / 10 ^ 82) ((38791426522360734167702973537172372636202362314337747005718667221528874338830953878992105973384771 : ℝ) / 10 ^ 82) _
      (by norm_num) (by norm_num) (by norm_num) 0 ((146492385259254136110548882679103910177596814562079314268773388830319141923947602244179263526004530659031 : ℝ) / 10 ^ 82) ((38791426522360734167702973537172372636202362314337747005718667221528874338830953878992105973384771 : ℝ) / 10 ^ 82) (fun hnext => ?_)
    exact atanLoop_done_eval 0.00001 ht ((146492385259254136110548882679103910177596814562079314268773388830319141923947602244179263526004530659031 : ℝ) / 10 ^ 82) ((38791426522360734167702973537172372636202362314337747005718667221528874338830953878992105973384771 : ℝ) / 10 ^ 82) _ (by norm_num)
  have L6 : ∀ (ht : 0 < (0.000001:ℝ)) (hx : 1 ≤ ((146492385259254136110548882679103910177596814562079314268773388830319141923947602244179263526004530659031 : ℝ) / 10 ^ 82)),
      atanLoop 0.000001 ht ((146492385259254136110548882679103910177596814562079314268773388830319141923947602244179263526004530659031 : ℝ) / 10 ^ 82) ((38791426522360734167702973537172372636202362314337747005718667221528874338830953878992105973384771 : ℝ) / 10 ^ 82) hx = (0, ((146492385259254136110548882679103910177596814562079314268773388830319141923947602244179263526004530659031 : ℝ) / 10 ^ 82), ((38791426522360734167702973537172372636202362314337747005718667221528874338830953878992105973384771 : ℝ) / 10 ^ 82)) := by
    intro ht hx
    exact atanLoop_done_eval 0.000001 ht ((146492385259254136110548882679103910177596814562079314268773388830319141923947602244179263526004530659031 : ℝ) / 10 ^ 82) ((38791426522360734167702973537172372636202362314337747005718667221528874338830953878992105973384771 : ℝ) / 10 ^ 82) _ (by norm_num)
  refine atanExtractLoop_cons_eval 1 [0.1, 0.01, 0.001, 0.0001, 0.00001, 0.000001] trigTable_pos
    1 ((10 : ℝ) ^ 22) le_rfl 1 (10000000000000000000001 : ℝ) (9999999999999999999999 : ℝ) (L0 _ _) (by norm_num) (([7, 8, 7, 7, 2, 0] : List ℕ), ((146492385259254136110548882679103910177596814562079314268773388830319141923947602244179263526004530659031 : ℝ) / 10 ^ 82), ((38791426522360734167702973537172372636202362314337747005718667221528874338830953878992105973384771 : ℝ) / 10 ^ 82)) ?_
  refine atanExtractLoop_cons_eval 0.1 [0.01, 0.001, 0.0001, 0.00001, 0.000001] _
    (10000000000000000000001 : ℝ) (9999999999999999999999 : ℝ) (by norm_num) 7 ((145870290000000000000001282831 : ℝ) / 10 ^ 7) ((12828309999999999999985412971 : ℝ) / 10 ^ 7) (L1 _ _) (by norm_num) (([8, 7, 7, 2, 0] : List ℕ), ((146492385259254136110548882679103910177596814562079314268773388830319141923947602244179263526004530659031 : ℝ) / 10 ^ 82), ((38791426522360734167702973537172372636202362314337747005718667221528874338830953878992105973384771 : ℝ) / 10 ^ 82)) ?_
  refine atanExtractLoop_cons_eval 0.01 [0.001, 0.0001, 0.00001, 0.000001] _
    ((145870290000000000000001282831 : ℝ) / 10 ^ 7) ((12828309999999999999985412971 : ℝ) / 10 ^ 7) (by norm_num) 8 ((1464875017795961562022291130944430835854226031 : ℝ) / 10 ^ 23) ((11309444308358542260163512498220403843797771 : ℝ) / 10 ^ 23) (L2 _ _) (by norm_num) (([7, 7, 2, 0] : List ℕ), ((146492385259254136110548882679103910177596814562079314268773388830319141923947602244179263526004530659031 : ℝ) / 10 ^ 82), ((38791426522360734167702973537172372636202362314337747005718667221528874338830953878992105973384771 : ℝ) / 10 ^ 82)) ?_
  refine atanExtractLoop_cons_eval 0.001 [0.0001, 0.00001, 0.000001] _
    ((1464875017795961562022291130944430835854226031 : ℝ) / 10 ^ 23) ((11309444308358542260163512498220403843797771 : ℝ) / 10 ^ 23) (by norm_num) 7 ((1464923421186186658699813524496573968514385003877291574454764985229 : ℝ) / 10 ^ 44) ((1055132956447026752992280573625928983982308658101672167618829031 : ℝ) / 10 ^ 44) (L3 _ _) (by norm_num) (([7, 2, 0] : List ℕ), ((146492385259254136110548882679103910177596814562079314268773388830319141923947602244179263526004530659031 : ℝ) / 10 ^ 82), ((38791426522360734167702973537172372636202362314337747005718667221528874338830953878992105973384771 : ℝ) / 10 ^ 82)) ?_
  refine atanExtractLoop_cons_eval 0.0001 [0.00001, 0.000001] _
    ((1464923421186186658699813524496573968514385003877291574454764985229 : ℝ) / 10 ^ 44) ((1055132956447026752992280573625928983982308658101672167618829031 : ℝ) / 10 ^ 44) (by norm_num) 7 ((14649238521453059200980521213058861409272720115174425919500257861280947138197319050248515140969 : ℝ) / 10 ^ 72) ((296863913110983648747479086489642374098038875944726180685049642016276794399457155832815229 : ℝ) / 10 ^ 72) (L4 _ _) (by norm_num) (([2, 0] : List ℕ), ((146492385259254136110548882679103910177596814562079314268773388830319141923947602244179263526004530659031 : ℝ) / 10 ^ 82), ((38791426522360734167702973537172372636202362314337747005718667221528874338830953878992105973384771 : ℝ) / 10 ^ 82)) ?_
  refine atanExtractLoop_cons_eval 0.00001 [0.000001] _
    ((14649238521453059200980521213058861409272720115174425919500257861280947138197319050248515140969 : ℝ) / 10 ^ 72) ((296863913110983648747479086489642374098038875944726180685049642016276794399457155832815229 : ℝ) / 10 ^ 72) (by norm_num) 2 ((146492385259254136110548882679103910177596814562079314268773388830319141923947602244179263526004530659031 : ℝ) / 10 ^ 82) ((38791426522360734167702973537172372636202362314337747005718667221528874338830953878992105973384771 : ℝ) / 10 ^ 82) (L5 _ _) (by norm_num) (([0] : List ℕ), ((146492385259254136110548882679103910177596814562079314268773388830319141923947602244179263526004530659031 : ℝ) / 10 ^ 82), ((38791426522360734167702973537172372636202362314337747005718667221528874338830953878992105973384771 : ℝ) / 10 ^ 82)) ?_
  refine atanExtractLoop_cons_eval 0.000001 [] _
    ((146492385259254136110548882679103910177596814562079314268773388830319141923947602244179263526004530659031 : ℝ) / 10 ^ 82) ((38791426522360734167702973537172372636202362314337747005718667221528874338830953878992105973384771 : ℝ) / 10 ^ 82) (by norm_num) 0 ((146492385259254136110548882679103910177596814562079314268773388830319141923947602244179263526004530659031 : ℝ) / 10 ^ 82) ((38791426522360734167702973537172372636202362314337747005718667221528874338830953878992105973384771 : ℝ) / 10 ^ 82) (L6 _ _) (by norm_num) (([] : List ℕ), ((146492385259254136110548882679103910177596814562079314268773388830319141923947602244179263526004530659031 : ℝ) / 10 ^ 82), ((38791426522360734167702973537172372636202362314337747005718667221528874338830953878992105973384771 : ℝ) / 10 ^ 82)) ?_
  rfl

theorem arctan_ge_of_P (N : ℕ) (x q : ℝ) (hx : 0 ≤ x)
    (h : q ≤ arctanP N x - x ^ (2 * N + 3) / (2 * (N:ℝ) + 3)) : q ≤ Real.arctan x := by
  have hb := abs_le.mp (arctan_series_bound N x hx)
  have h1 := hb.1
  linarith

theorem arctan_le_of_P (N : ℕ) (x q : ℝ) (hx : 0 ≤ x)
    (h : arctanP N x + x ^ (2 * N + 3) / (2 * (N:ℝ) + 3) ≤ q) : Real.arctan x ≤ q := by
  have hb := abs_le.mp (arctan_series_bound N x hx)
  have h2 := hb.2
  linarith

/-- C9 (counterexample): at the input `10^22`, the recombination of `atan1`
returns the final ratio plus the digit-weighted arctangent values, and that
sum exceeds π/2 by about `6e-21`: the residual ratio `y/x` is added raw
(instead of its arctangent), and for inputs this large the gap
`r - arctan r` exceeds `π/2 - arctan n`.  So the output of `atan1` is not
always strictly inside `(-π/2, π/2)`. -/
theorem C9_atan1_range_counterexample : Real.pi / 2 < atan1 (10 ^ 22) := by
  have habs : |(10:ℝ) ^ 22| = (10:ℝ) ^ 22 := abs_of_nonneg (by positivity)
  rw [atan1, if_neg (not_lt.mpr (by positivity : (0:ℝ) ≤ 10 ^ 22)), habs,
    atanExtract_1e22]
  simp only [tans, atanRecomb]
  push_cast
  have a1 : ((667060971998579589686283604193 : ℝ) / 6692786100000000000000000000000) ≤ Real.arctan 0.1 := by
    refine arctan_ge_of_P 10 0.1 _ (by norm_num) ?_
    simp only [arctanP, Finset.sum_range_succ, Finset.sum_range_zero]
    norm_num
  have a2 : ((9008699718016713100091809307 : ℝ) / 900900000000000000000000000000) ≤ Real.arctan 0.01 := by
    refine arctan_ge_of_P 5 0.01 _ (by norm_num) ?_
    simp only [arctanP, Finset.sum_range_succ, Finset.sum_range_zero]
    norm_num
  have a3 : ((62999979000012599990999993 : ℝ) / 63000000000000000000000000000) ≤ Real.arctan 0.001 := by
    refine arctan_ge_of_P 3 0.001 _ (by norm_num) ?_
    simp only [arctanP, Finset.sum_range_succ, Finset.sum_range_zero]
    norm_num
  have a4 : ((20999999930000000419999997 : ℝ) / 210000000000000000000000000000) ≤ Real.arctan 0.0001 := by
    refine arctan_ge_of_P 2 0.0001 _ (by norm_num) ?_
    simp only [arctanP, Finset.sum_range_succ, Finset.sum_range_zero]
    norm_num
  have a5 : ((1499999999949999999997 : ℝ) / 150000000000000000000000000) ≤ Real.arctan 0.00001 := by
    refine arctan_ge_of_P 1 0.00001 _ (by norm_num) ?_
    simp only [arctanP, Finset.sum_range_succ, Finset.sum_range_zero]
    norm_num
  have a3i : Real.arctan 3⁻¹ ≤ ((337202630556144369025747491649705809346 : ℝ) / 1048025017978534474116844803355346628825) := by
    refine arctan_le_of_P 22 3⁻¹ _ (by norm_num) ?_
    simp only [arctanP, Finset.sum_range_succ, Finset.sum_range_zero]
    norm_num
  have a7i : Real.arctan 7⁻¹ ≤ ((6686373457529080597512345244496 : ℝ) / 47121298438374147534797084009175) := by
    refine arctan_le_of_P 12 7⁻¹ _ (by norm_num) ?_
    simp only [arctanP, Finset.sum_range_succ, Finset.sum_range_zero]
    norm_num
  have hpi : 2 * Real.arctan 3⁻¹ + Real.arctan 7⁻¹ = Real.pi / 4 :=
    Real.two_mul_arctan_inv_3_add_arctan_inv_7
  have h1 : Real.arctan 1 = Real.pi / 4 := Real.arctan_one
  linarith
